import Mathlib

/-!
Shallow embedding of the dynamic draft engine of
`backend/app/services/dynamic_draft_engine.py` (FantasyFootballDraftHelper).

Modelling conventions:
* Python floats are modelled as exact rationals (`ℚ`); floating-point rounding
  is outside the scope of the claims checked here, and the display-only
  `round(x, 1)` calls used when building response dictionaries are elided.
* The two transcendental floating-point operations the engine uses
  (`math.sqrt` in the scarcity score, `x ** 1.5` in the bot-realistic value
  multiplier) and the random-number generator (`random.uniform`) are modelled
  as abstract functions carried by the `Engine` record: the claims checked
  here do not depend on their values.
* Python dicts keyed by position or player id are modelled as total functions
  into `Option`; `dict.get(k, d)` becomes `(f k).getD d`.
* Python sets of player ids are modelled as `Finset ℕ`.
* `Pick.timestamp` (wall-clock `time.time()`) is elided: no claim observes it.
-/

namespace FFDraft

/-- The `PositionEnum` from `app.data.models` (not under `src/`).
Modelled from the spec: the player catalog assigns each player one of the
six fantasy positions used by `ROSTER_REQUIREMENTS`. -/
inductive PositionEnum where
  | QB | RB | WR | TE | K | DEF
deriving DecidableEq, Repr

/-- List of all positions, used to model `for pos in PositionEnum` loops. -/
def PositionEnum.all : List PositionEnum :=
  [.QB, .RB, .WR, .TE, .K, .DEF]

/-- The `ScoringTypeEnum` from `app.data.models` (not under `src/`).
Modelled from the spec: the three scoring modes with per-mode projections. -/
inductive ScoringTypeEnum where
  | PPR | HALF_PPR | STANDARD
deriving DecidableEq, Repr

/-- The fields of the `Player` ORM model read by the draft engine
(`app.data.models.Player` is not under `src/`; the fields and their
optionality are modelled from the engine's accesses and the spec's
PlayerRecord description: position, per-mode projected points, ADP, ECR). -/
structure Player where
  id : ℕ
  position : PositionEnum
  name : String := ""
  projected_points : Option ℚ := none
  projected_points_ppr : Option ℚ := none
  projected_points_half_ppr : Option ℚ := none
  projected_points_standard : Option ℚ := none
  adp_ppr : Option ℚ := none
  adp_half_ppr : Option ℚ := none
  adp_standard : Option ℚ := none
  expert_consensus_rank : Option ℕ := none
deriving DecidableEq, Repr

/-- Python truthiness of an optional float: `None` and `0.0` are falsy. -/
def pyTruthy (x : Option ℚ) : Bool :=
  match x with
  | none => false
  | some v => v != 0

/-- Python `a or b` on optional floats (used for fallback chains such as
`adp_ppr or adp_half_ppr or adp_standard`). -/
def pyOr (a b : Option ℚ) : Option ℚ :=
  if pyTruthy a then a else b

/-- The `DynamicDraftEngine._get_projected_points`: pick the active scoring
mode's projection, falling back to the `ppr or half_ppr or standard`
truthiness chain when the mode-specific value is `None`. -/
def getProjectedPoints (p : Player) (mode : ScoringTypeEnum) : Option ℚ :=
  let points : Option ℚ :=
    match mode with
    | .PPR => p.projected_points_ppr
    | .HALF_PPR => p.projected_points_half_ppr
    | .STANDARD => p.projected_points_standard
  if points = none then
    pyOr p.projected_points_ppr (pyOr p.projected_points_half_ppr p.projected_points_standard)
  else points

/-- The `self._get_projected_points(player, mode) or 0`: Python `or 0` collapses
both `None` and `0.0` to `0`, which is exactly `Option.getD 0`. -/
def projPointsOr0 (p : Player) (mode : ScoringTypeEnum) : ℚ :=
  (getProjectedPoints p mode).getD 0

/-- The `DynamicDraftEngine._get_adp`: `adp_ppr or adp_half_ppr or adp_standard`. -/
def getAdp (p : Player) : Option ℚ :=
  pyOr p.adp_ppr (pyOr p.adp_half_ppr p.adp_standard)

/-- The `Pick` dataclass (timestamp elided, see module comment). -/
structure Pick where
  pick_index : ℕ
  team_id : ℕ
  player_id : ℕ
  round_number : ℕ
  pick_in_round : ℕ
deriving DecidableEq, Repr

/-- The `ScarcityMetrics` dataclass.  All float fields are rationals; the
`scarcity_score` stores `avg × sqrt(teams) / max(remaining, 1)` where the
square root is supplied by the engine's abstract `sqrtQ` (see `Engine`). -/
structure ScarcityMetrics where
  position : PositionEnum
  avg_vorp_remaining : ℚ
  dropoff_at_next_tier : ℚ
  scarcity_score : ℚ
  urgency_flag : Bool
  replacement_level : ℚ
  players_remaining : ℕ
deriving DecidableEq, Repr

/-- The `TeamRoster` dataclass; `__post_init__` fills the per-position maps,
modelled by the total-function defaults. -/
structure TeamRoster where
  team_id : ℕ
  picks : List ℕ := []
  positional_counts : PositionEnum → ℕ := fun _ => 0
  need_scores : PositionEnum → ℚ := fun _ => 0

/-- The `DraftState` dataclass.  The `next_pick_map` field is declared in the
source but never read or written by the engine and is elided.  Dict-valued
caches start empty (`none` everywhere); `drafted_count_by_pos` and the
rosters are initialised for every key by `__post_init__`, hence total. -/
structure DraftState where
  num_teams : ℕ
  draft_spot : ℕ
  snake : Bool
  scoring_mode : ScoringTypeEnum
  draft_order : List ℕ := []
  current_pick_index : ℕ := 0
  picks : List Pick := []
  remaining_players : Finset ℕ := ∅
  rosters : ℕ → TeamRoster := fun t => { team_id := t }
  vorp_cache : ℕ → Option ℚ := fun _ => none
  scarcity_cache : PositionEnum → Option ScarcityMetrics := fun _ => none
  replacement_levels : PositionEnum → Option ℚ := fun _ => none
  drafted_count_by_pos : PositionEnum → ℕ := fun _ => 0

/-- The `DraftState.get_current_team_id`: `-1` is the Python sentinel returned
once the pointer has passed the end of the order (`list.get?` is `none`
exactly when `current_pick_index >= len(draft_order)`). -/
def DraftState.getCurrentTeamId (s : DraftState) : ℤ :=
  match s.draft_order.get? s.current_pick_index with
  | some t => (t : ℤ)
  | none => -1

/-- The `DraftState.is_draft_complete`. -/
def DraftState.isDraftComplete (s : DraftState) : Bool :=
  decide (s.draft_order.length ≤ s.current_pick_index)

/-- The `DraftState.get_round_and_pick`: global 0-based pick index to
(1-based round, 1-based pick-in-round). -/
def DraftState.getRoundAndPick (s : DraftState) (pick_index : ℕ) : ℕ × ℕ :=
  (pick_index / s.num_teams + 1, pick_index % s.num_teams + 1)

/-- The `DraftState.get_user_next_pick_index`: scan forward from the pointer for
the next slot of the user's team. -/
def DraftState.getUserNextPickIndex (s : DraftState) : Option ℕ :=
  (List.range s.draft_order.length).find? fun i =>
    decide (s.current_pick_index + 1 ≤ i) && decide (s.draft_order.getD i 0 = s.draft_spot)

/-- The `DynamicDraftEngine.ROSTER_REQUIREMENTS`. -/
def rosterRequirements : PositionEnum → ℕ
  | .QB => 1
  | .RB => 2
  | .WR => 2
  | .TE => 1
  | .K => 1
  | .DEF => 1

/-- The `DynamicDraftEngine.BENCH_BUFFER`. -/
def benchBuffer : ℕ := 3

/-- The immutable per-process context of `DynamicDraftEngine`: the player
cache loaded from the database plus abstract stand-ins for the impure
ingredients (see module comment).  `catalog` is `players_cache`,
`catalogIds` its key set, `position_players` the per-position lists built by
`_load_players_cache`, `learnedAdjustment` the value of
`_get_learned_adp_adjustment` (backed by the on-disk learning file),
`sqrtQ` models `math.sqrt`, `powThreeHalves` models `x ** 1.5`, and
`uniform lo hi i` models the value returned by the `i`-th call of
`random.uniform(lo, hi)` while scoring one advice request. -/
structure Engine where
  catalog : ℕ → Option Player
  catalogIds : Finset ℕ
  position_players : PositionEnum → List Player
  learnedAdjustment : ℕ → ℚ := fun _ => 0
  sqrtQ : ℕ → ℚ := fun _ => 0
  powThreeHalves : ℚ → ℚ := fun _ => 0
  uniform : ℚ → ℚ → ℕ → ℚ := fun _ _ _ => 1

/-- The `DynamicDraftEngine._generate_draft_order`: 16 rounds; with snake
enabled, 0-indexed odd rounds run `num_teams..1`, the others `1..num_teams`
(`range(1, n+1)` is `List.range' 1 n`, `range(n, 0, -1)` its reverse). -/
def generateDraftOrder (numTeams : ℕ) (snake : Bool) : List ℕ :=
  ((List.range 16).map fun roundNum =>
    if snake && roundNum % 2 == 1 then (List.range' 1 numTeams).reverse
    else List.range' 1 numTeams).flatten

/-- Python list indexing `l[i]`: a negative index counts from the end;
`none` corresponds to an `IndexError`. -/
def pyIndex {α : Type} (l : List α) (i : ℤ) : Option α :=
  if 0 ≤ i then l.get? i.toNat
  else if 0 ≤ i + l.length then l.get? (i + l.length).toNat
  else none

/-- The players of a position still in the remaining pool, in catalog order
(`[p for p in self.position_players[position] if p.id in remaining_players]`). -/
def remainingAtPos (eng : Engine) (s : DraftState) (pos : PositionEnum) : List Player :=
  (eng.position_players pos).filter fun p => decide (p.id ∈ s.remaining_players)

/-- The `replacement_index` computed by `_calculate_replacement_level`:
`(starters-per-team × teams + bench buffer) − drafted-at-position`, a Python
int that can go negative once a position has been drafted heavily. -/
def replacementIdx (s : DraftState) (pos : PositionEnum) : ℤ :=
  (rosterRequirements pos * s.num_teams + benchBuffer : ℕ) - (s.drafted_count_by_pos pos : ℤ)

/-- The value computation of `_calculate_replacement_level`: when
`replacement_index < len(remaining)` the sorted remaining list is indexed
directly — with Python semantics a negative index reads from the tail; an
index below `-len` would raise `IndexError` mid-update in Python and is
modelled as the value 0 here (no claim observes that corner).  Otherwise
the documented zero fallback for deep positions. -/
def replacementPointsFor (mode : ScoringTypeEnum) (remaining : List Player)
    (replacement_index : ℤ) : ℚ :=
  if replacement_index < (remaining.length : ℤ) then
    ((pyIndex remaining replacement_index).map fun p => projPointsOr0 p mode).getD 0
  else 0

/-- The `_calculate_replacement_level`: computes the replacement value over the
remaining players at the position and stores it in the per-position map. -/
def calculateReplacementLevel (eng : Engine) (s : DraftState) (pos : PositionEnum) :
    DraftState :=
  let remaining := remainingAtPos eng s pos
  let replacement_points := replacementPointsFor s.scoring_mode remaining (replacementIdx s pos)
  { s with replacement_levels := Function.update s.replacement_levels pos (some replacement_points) }

/-- The projection used by `_calculate_position_vorp`:
`player.projected_points or _get_projected_points(player, mode) or 0`
(Python truthiness: a stored `0.0` falls through to the fallbacks). -/
def vorpProjection (p : Player) (mode : ScoringTypeEnum) : ℚ :=
  (pyOr p.projected_points (getProjectedPoints p mode)).getD 0

/-- Loop body of `_calculate_position_vorp`: walk the position's player list
and cache `max(0, projection − replacement_level)` for each remaining
player. -/
def setVorps (repl : ℚ) (mode : ScoringTypeEnum) (remaining : Finset ℕ) :
    List Player → (ℕ → Option ℚ) → (ℕ → Option ℚ)
  | [], cache => cache
  | p :: rest, cache =>
    if p.id ∈ remaining then
      setVorps repl mode remaining rest
        (Function.update cache p.id (some (max 0 (vorpProjection p mode - repl))))
    else setVorps repl mode remaining rest cache

/-- The `_calculate_position_vorp` (the returned `vorp_updates` dict is response
payload only and is elided; the cache mutation is what the claims observe).
`replacement_levels.get(position, 0.0)` is the source's own default. -/
def calculatePositionVorp (eng : Engine) (s : DraftState) (pos : PositionEnum) :
    DraftState :=
  let replacement_level := (s.replacement_levels pos).getD 0
  let newCache := setVorps replacement_level s.scoring_mode s.remaining_players
    (eng.position_players pos) s.vorp_cache
  { s with vorp_cache := newCache }

/-- The `_calculate_tier_dropoff`: largest proportional adjacent-pair drop over
the full remaining list, pairs with non-positive leading VORP skipped. -/
def tierDropoff (cache : ℕ → Option ℚ) (players : List Player) : ℚ :=
  if players.length < 2 then 0
  else (players.zip players.tail).foldl
    (fun maxDrop pq =>
      let current_vorp := (cache pq.1.id).getD 0
      let next_vorp := (cache pq.2.id).getD 0
      if 0 < current_vorp then max maxDrop ((current_vorp - next_vorp) / current_vorp)
      else maxDrop) 0

/-- The `_calculate_position_scarcity`.  `replacement_levels[position]` is direct
dict indexing in the source; the key is set on every call path immediately
beforehand, so the `getD 0` default is never observed. -/
def calculatePositionScarcity (eng : Engine) (s : DraftState) (pos : PositionEnum) :
    DraftState :=
  let remaining := remainingAtPos eng s pos
  let metrics : ScarcityMetrics :=
    if remaining.isEmpty then
      { position := pos, avg_vorp_remaining := 0, dropoff_at_next_tier := 0,
        scarcity_score := 0, urgency_flag := false,
        replacement_level := (s.replacement_levels pos).getD 0, players_remaining := 0 }
    else
      let top_players := remaining.take 10
      let avg_vorp := (top_players.map fun p => (s.vorp_cache p.id).getD 0).sum / top_players.length
      let dropoff := tierDropoff s.vorp_cache remaining
      let scarcity_score := avg_vorp * eng.sqrtQ s.num_teams / ((max remaining.length 1 : ℕ) : ℚ)
      let urgency_flag := decide (2 < scarcity_score) || decide ((15 : ℚ) / 100 < dropoff)
      { position := pos, avg_vorp_remaining := avg_vorp, dropoff_at_next_tier := dropoff,
        scarcity_score := scarcity_score, urgency_flag := urgency_flag,
        replacement_level := (s.replacement_levels pos).getD 0,
        players_remaining := remaining.length }
  { s with scarcity_cache := Function.update s.scarcity_cache pos (some metrics) }

/-- The `_update_vorp_and_scarcity`: replacement level, then VORP, then scarcity,
for the affected position only. -/
def updateVorpAndScarcity (eng : Engine) (s : DraftState) (pos : PositionEnum) :
    DraftState :=
  calculatePositionScarcity eng
    (calculatePositionVorp eng (calculateReplacementLevel eng s pos) pos) pos

/-- The `_update_team_needs`: for every position, `max(0, target − current)`
weighted by `1 + scarcity_score/10` when the position has cached scarcity. -/
def updateTeamNeeds (s : DraftState) (team_id : ℕ) : DraftState :=
  let roster := s.rosters team_id
  let newScores : PositionEnum → ℚ := fun pos =>
    let target := rosterRequirements pos
    let current := roster.positional_counts pos
    let need : ℚ := max 0 ((target : ℚ) - (current : ℚ))
    let scarcity_multiplier : ℚ :=
      match s.scarcity_cache pos with
      | some m => 1 + m.scarcity_score / 10
      | none => 1
    need * scarcity_multiplier
  { s with rosters := Function.update s.rosters team_id { roster with need_scores := newScores } }

/-- The three typed rejections of `make_pick` plus the (unreachable)
`current_team_id == -1` guard. -/
inductive PickErr where
  | draftComplete
  | playerUnavailable
  | unknownPlayer
  | noCurrentTeam
deriving DecidableEq, Repr

/-- The pick-apply step on the remaining set: `remaining_players.discard(id)`
followed by the source's defensive “double-check consistency” re-discard
(a no-op on sets, kept for fidelity). -/
def discardChecked (remaining : Finset ℕ) (pid : ℕ) : Finset ℕ :=
  let r := remaining.erase pid
  if pid ∈ r then r.erase pid else r

/-- The `DynamicDraftEngine.make_pick`.  Returns the state as left by the call
together with `none` on success or the error raised; all three validation
errors are raised before any mutation, so they return the input state.
The `current_team_id == -1` re-check is the source's dead guard (a complete
draft was already rejected).  The result dict (pick, update maps, needs) is
response payload and is elided; the state carries all claimed data. -/
def makePick (eng : Engine) (s : DraftState) (player_id : ℕ) :
    DraftState × Option PickErr :=
  if s.isDraftComplete then (s, some .draftComplete)
  else if player_id ∉ s.remaining_players then (s, some .playerUnavailable)
  else
    match eng.catalog player_id with
    | none => (s, some .unknownPlayer)
    | some player =>
      match s.draft_order.get? s.current_pick_index with
      | none => (s, some .noCurrentTeam)
      | some current_team_id =>
        let rp := s.getRoundAndPick s.current_pick_index
        let pick : Pick :=
          { pick_index := s.current_pick_index, team_id := current_team_id,
            player_id := player_id, round_number := rp.1, pick_in_round := rp.2 }
        let roster := s.rosters current_team_id
        let s1 := { s with
          picks := s.picks ++ [pick],
          remaining_players := discardChecked s.remaining_players player_id,
          rosters := Function.update s.rosters current_team_id
            { roster with picks := roster.picks ++ [player_id] } }
        let player_position := player.position
        let s2 := { s1 with
          drafted_count_by_pos := Function.update s1.drafted_count_by_pos player_position
            (s1.drafted_count_by_pos player_position + 1) }
        let roster2 := s2.rosters current_team_id
        let newCounts := Function.update roster2.positional_counts player_position
          (roster2.positional_counts player_position + 1)
        let s3 := { s2 with
          rosters := Function.update s2.rosters current_team_id
            { roster2 with positional_counts := newCounts } }
        let s4 := { s3 with current_pick_index := s3.current_pick_index + 1 }
        let s5 := updateVorpAndScarcity eng s4 player_position
        (updateTeamNeeds s5 current_team_id, none)

/-- The `_initialize_vorp_and_scarcity`: replacement levels for every position,
then VORP and scarcity eagerly for the non-empty key positions only. -/
def initVorpAndScarcity (eng : Engine) (s : DraftState) : DraftState :=
  let s1 := PositionEnum.all.foldl (fun st pos => calculateReplacementLevel eng st pos) s
  [PositionEnum.QB, PositionEnum.RB, PositionEnum.WR, PositionEnum.TE].foldl
    (fun st pos =>
      if (eng.position_players pos).isEmpty then st
      else calculatePositionScarcity eng (calculatePositionVorp eng st pos) pos) s1

/-- The `DynamicDraftEngine.create_draft` (the uuid draft id and logging are
elided; `_load_players_cache` re-reads the same immutable catalog the
engine already carries). -/
def createDraft (eng : Engine) (num_teams draft_spot : ℕ)
    (scoring_mode : ScoringTypeEnum) : DraftState :=
  let draft_order := generateDraftOrder num_teams true
  let s : DraftState :=
    { num_teams := num_teams, draft_spot := draft_spot, snake := true,
      scoring_mode := scoring_mode, draft_order := draft_order,
      remaining_players := eng.catalogIds }
  initVorpAndScarcity eng s

/-- The `DynamicDraftEngine.ensure_vorp_calculated`: lazy materialization of the
VORP/scarcity caches for a position not yet computed. -/
def ensureVorpCalculated (eng : Engine) (s : DraftState) (pos : PositionEnum) :
    DraftState :=
  if (s.scarcity_cache pos).isSome then s
  else
    let s1 := if (s.replacement_levels pos).isSome then s
              else calculateReplacementLevel eng s pos
    calculatePositionScarcity eng (calculatePositionVorp eng s1 pos) pos

/-- The draft states reachable from `create_draft` by successful picks —
exactly the lifecycle the spec's invariants quantify over. -/
inductive Reachable (eng : Engine) : DraftState → Prop where
  | create : ∀ num_teams draft_spot scoring_mode,
      Reachable eng (createDraft eng num_teams draft_spot scoring_mode)
  | pick : ∀ s player_id, Reachable eng s → (makePick eng s player_id).2 = none →
      Reachable eng (makePick eng s player_id).1

/-! ### Field-preservation lemmas

Each cache-recomputation routine touches exactly one field of the state;
these projections let the invariant proofs see through them. -/

@[simp] lemma calculateReplacementLevel_picks (eng : Engine) (s : DraftState) (pos : PositionEnum) :
    (calculateReplacementLevel eng s pos).picks = s.picks := rfl

@[simp] lemma calculateReplacementLevel_remaining (eng : Engine) (s : DraftState) (pos : PositionEnum) :
    (calculateReplacementLevel eng s pos).remaining_players = s.remaining_players := rfl

@[simp] lemma calculateReplacementLevel_index (eng : Engine) (s : DraftState) (pos : PositionEnum) :
    (calculateReplacementLevel eng s pos).current_pick_index = s.current_pick_index := rfl

@[simp] lemma calculateReplacementLevel_counts (eng : Engine) (s : DraftState) (pos : PositionEnum) :
    (calculateReplacementLevel eng s pos).drafted_count_by_pos = s.drafted_count_by_pos := rfl

@[simp] lemma calculateReplacementLevel_vorp (eng : Engine) (s : DraftState) (pos : PositionEnum) :
    (calculateReplacementLevel eng s pos).vorp_cache = s.vorp_cache := rfl

@[simp] lemma calculateReplacementLevel_scarcity (eng : Engine) (s : DraftState) (pos : PositionEnum) :
    (calculateReplacementLevel eng s pos).scarcity_cache = s.scarcity_cache := rfl

@[simp] lemma calculateReplacementLevel_num_teams (eng : Engine) (s : DraftState) (pos : PositionEnum) :
    (calculateReplacementLevel eng s pos).num_teams = s.num_teams := rfl

@[simp] lemma calculateReplacementLevel_scoring (eng : Engine) (s : DraftState) (pos : PositionEnum) :
    (calculateReplacementLevel eng s pos).scoring_mode = s.scoring_mode := rfl

@[simp] lemma calculateReplacementLevel_order (eng : Engine) (s : DraftState) (pos : PositionEnum) :
    (calculateReplacementLevel eng s pos).draft_order = s.draft_order := rfl

@[simp] lemma calculatePositionVorp_picks (eng : Engine) (s : DraftState) (pos : PositionEnum) :
    (calculatePositionVorp eng s pos).picks = s.picks := rfl

@[simp] lemma calculatePositionVorp_remaining (eng : Engine) (s : DraftState) (pos : PositionEnum) :
    (calculatePositionVorp eng s pos).remaining_players = s.remaining_players := rfl

@[simp] lemma calculatePositionVorp_index (eng : Engine) (s : DraftState) (pos : PositionEnum) :
    (calculatePositionVorp eng s pos).current_pick_index = s.current_pick_index := rfl

@[simp] lemma calculatePositionVorp_counts (eng : Engine) (s : DraftState) (pos : PositionEnum) :
    (calculatePositionVorp eng s pos).drafted_count_by_pos = s.drafted_count_by_pos := rfl

@[simp] lemma calculatePositionVorp_levels (eng : Engine) (s : DraftState) (pos : PositionEnum) :
    (calculatePositionVorp eng s pos).replacement_levels = s.replacement_levels := rfl

@[simp] lemma calculatePositionVorp_scarcity (eng : Engine) (s : DraftState) (pos : PositionEnum) :
    (calculatePositionVorp eng s pos).scarcity_cache = s.scarcity_cache := rfl

@[simp] lemma calculatePositionVorp_num_teams (eng : Engine) (s : DraftState) (pos : PositionEnum) :
    (calculatePositionVorp eng s pos).num_teams = s.num_teams := rfl

@[simp] lemma calculatePositionVorp_scoring (eng : Engine) (s : DraftState) (pos : PositionEnum) :
    (calculatePositionVorp eng s pos).scoring_mode = s.scoring_mode := rfl

@[simp] lemma calculatePositionVorp_order (eng : Engine) (s : DraftState) (pos : PositionEnum) :
    (calculatePositionVorp eng s pos).draft_order = s.draft_order := rfl

@[simp] lemma calculatePositionScarcity_picks (eng : Engine) (s : DraftState) (pos : PositionEnum) :
    (calculatePositionScarcity eng s pos).picks = s.picks := rfl

@[simp] lemma calculatePositionScarcity_remaining (eng : Engine) (s : DraftState) (pos : PositionEnum) :
    (calculatePositionScarcity eng s pos).remaining_players = s.remaining_players := rfl

@[simp] lemma calculatePositionScarcity_index (eng : Engine) (s : DraftState) (pos : PositionEnum) :
    (calculatePositionScarcity eng s pos).current_pick_index = s.current_pick_index := rfl

@[simp] lemma calculatePositionScarcity_counts (eng : Engine) (s : DraftState) (pos : PositionEnum) :
    (calculatePositionScarcity eng s pos).drafted_count_by_pos = s.drafted_count_by_pos := rfl

@[simp] lemma calculatePositionScarcity_levels (eng : Engine) (s : DraftState) (pos : PositionEnum) :
    (calculatePositionScarcity eng s pos).replacement_levels = s.replacement_levels := rfl

@[simp] lemma calculatePositionScarcity_vorp (eng : Engine) (s : DraftState) (pos : PositionEnum) :
    (calculatePositionScarcity eng s pos).vorp_cache = s.vorp_cache := rfl

@[simp] lemma calculatePositionScarcity_num_teams (eng : Engine) (s : DraftState) (pos : PositionEnum) :
    (calculatePositionScarcity eng s pos).num_teams = s.num_teams := rfl

@[simp] lemma calculatePositionScarcity_scoring (eng : Engine) (s : DraftState) (pos : PositionEnum) :
    (calculatePositionScarcity eng s pos).scoring_mode = s.scoring_mode := rfl

@[simp] lemma calculatePositionScarcity_order (eng : Engine) (s : DraftState) (pos : PositionEnum) :
    (calculatePositionScarcity eng s pos).draft_order = s.draft_order := rfl

@[simp] lemma updateTeamNeeds_picks (s : DraftState) (t : ℕ) :
    (updateTeamNeeds s t).picks = s.picks := rfl

@[simp] lemma updateTeamNeeds_remaining (s : DraftState) (t : ℕ) :
    (updateTeamNeeds s t).remaining_players = s.remaining_players := rfl

@[simp] lemma updateTeamNeeds_index (s : DraftState) (t : ℕ) :
    (updateTeamNeeds s t).current_pick_index = s.current_pick_index := rfl

@[simp] lemma updateTeamNeeds_counts (s : DraftState) (t : ℕ) :
    (updateTeamNeeds s t).drafted_count_by_pos = s.drafted_count_by_pos := rfl

@[simp] lemma updateTeamNeeds_levels (s : DraftState) (t : ℕ) :
    (updateTeamNeeds s t).replacement_levels = s.replacement_levels := rfl

@[simp] lemma updateTeamNeeds_vorp (s : DraftState) (t : ℕ) :
    (updateTeamNeeds s t).vorp_cache = s.vorp_cache := rfl

@[simp] lemma updateTeamNeeds_scarcity (s : DraftState) (t : ℕ) :
    (updateTeamNeeds s t).scarcity_cache = s.scarcity_cache := rfl

@[simp] lemma updateTeamNeeds_num_teams (s : DraftState) (t : ℕ) :
    (updateTeamNeeds s t).num_teams = s.num_teams := rfl

@[simp] lemma updateTeamNeeds_scoring (s : DraftState) (t : ℕ) :
    (updateTeamNeeds s t).scoring_mode = s.scoring_mode := rfl

@[simp] lemma updateTeamNeeds_order (s : DraftState) (t : ℕ) :
    (updateTeamNeeds s t).draft_order = s.draft_order := rfl

@[simp] lemma discardChecked_eq (r : Finset ℕ) (pid : ℕ) :
    discardChecked r pid = r.erase pid := by
  unfold discardChecked
  simp

/-- The net state mutation of a successful `make_pick` before the cache
recomputations: pick appended, player removed from the pool, roster and
positional counters bumped, pointer advanced.  (The source performs the two
roster writes separately; they fuse into one `Function.update`.) -/
def applyPickCore (s : DraftState) (player_id : ℕ) (player : Player)
    (current_team_id : ℕ) : DraftState :=
  let rp := s.getRoundAndPick s.current_pick_index
  let pick : Pick :=
    { pick_index := s.current_pick_index, team_id := current_team_id,
      player_id := player_id, round_number := rp.1, pick_in_round := rp.2 }
  let roster := s.rosters current_team_id
  let newCounts := Function.update roster.positional_counts player.position
    (roster.positional_counts player.position + 1)
  let newRoster := { roster with
    picks := roster.picks ++ [player_id]
    positional_counts := newCounts }
  let newDrafted := Function.update s.drafted_count_by_pos player.position
    (s.drafted_count_by_pos player.position + 1)
  { s with
    picks := s.picks ++ [pick],
    remaining_players := s.remaining_players.erase player_id,
    rosters := Function.update s.rosters current_team_id newRoster,
    drafted_count_by_pos := newDrafted,
    current_pick_index := s.current_pick_index + 1 }

lemma makePick_success_spec (eng : Engine) (s : DraftState) (pid : ℕ)
    (h : (makePick eng s pid).2 = none) :
    s.isDraftComplete = false ∧ pid ∈ s.remaining_players ∧
    ∃ player current_team_id, eng.catalog pid = some player ∧
      s.draft_order.get? s.current_pick_index = some current_team_id ∧
      makePick eng s pid =
        (updateTeamNeeds
          (updateVorpAndScarcity eng (applyPickCore s pid player current_team_id)
            player.position) current_team_id, none) := by
  by_cases hc : s.isDraftComplete
  · simp [makePick, hc] at h
  · by_cases hrem : pid ∈ s.remaining_players
    · cases hcat : eng.catalog pid with
      | none => simp [makePick, hc, hrem, hcat] at h
      | some player =>
        cases hteam : s.draft_order.get? s.current_pick_index with
        | none =>
          rw [List.get?_eq_getElem?] at hteam
          simp [makePick, hc, hrem, hcat, hteam] at h
        | some current_team_id =>
          rw [List.get?_eq_getElem?] at hteam
          refine ⟨by simpa using hc, hrem, player, current_team_id, rfl, rfl, ?_⟩
          simp [makePick, hc, hrem, hcat, hteam, applyPickCore,
            Function.update_same, Function.update_idem]
    · simp [makePick, hc, hrem] at h

/-! ### The reachable-state invariant (spec §3 / §8) -/

/-- The set of player ids recorded in the pick log. -/
def draftedIds (s : DraftState) : Finset ℕ :=
  (s.picks.map Pick.player_id).toFinset

/-- State-consistency invariant: pool and pick log partition the catalog,
the log length tracks the pointer, and the per-position counters count the
log. -/
def Invariant (eng : Engine) (s : DraftState) : Prop :=
  Disjoint s.remaining_players (draftedIds s) ∧
  s.remaining_players ∪ draftedIds s = eng.catalogIds ∧
  s.picks.length = s.current_pick_index ∧
  ∀ pos, s.drafted_count_by_pos pos =
    (s.picks.filter fun pk =>
      decide ((eng.catalog pk.player_id).map Player.position = some pos)).length

lemma foldl_preserving {β γ : Type} (f : DraftState → β → DraftState)
    (proj : DraftState → γ) (hf : ∀ st b, proj (f st b) = proj st) :
    ∀ (l : List β) (st : DraftState), proj (l.foldl f st) = proj st := by
  intro l
  induction l with
  | nil => intro st; rfl
  | cons hd tl ih => intro st; rw [List.foldl_cons, ih, hf]

/-- The eager-initialization step of the lazy fold preserves a projection
that every cache routine preserves. -/
lemma initStep_preserving {γ : Type} (eng : Engine) (proj : DraftState → γ)
    (h1 : ∀ st pos, proj (calculatePositionVorp eng st pos) = proj st)
    (h2 : ∀ st pos, proj (calculatePositionScarcity eng st pos) = proj st)
    (st : DraftState) (pos : PositionEnum) :
    proj (if (eng.position_players pos).isEmpty then st
      else calculatePositionScarcity eng (calculatePositionVorp eng st pos) pos) = proj st := by
  split
  · rfl
  · rw [h2, h1]

@[simp] lemma initVorpAndScarcity_picks (eng : Engine) (s : DraftState) :
    (initVorpAndScarcity eng s).picks = s.picks := by
  unfold initVorpAndScarcity
  rw [foldl_preserving _ DraftState.picks (initStep_preserving eng _ (by simp) (by simp)),
    foldl_preserving _ DraftState.picks (by simp)]

@[simp] lemma initVorpAndScarcity_remaining (eng : Engine) (s : DraftState) :
    (initVorpAndScarcity eng s).remaining_players = s.remaining_players := by
  unfold initVorpAndScarcity
  rw [foldl_preserving _ DraftState.remaining_players (initStep_preserving eng _ (by simp) (by simp)),
    foldl_preserving _ DraftState.remaining_players (by simp)]

@[simp] lemma initVorpAndScarcity_index (eng : Engine) (s : DraftState) :
    (initVorpAndScarcity eng s).current_pick_index = s.current_pick_index := by
  unfold initVorpAndScarcity
  rw [foldl_preserving _ DraftState.current_pick_index (initStep_preserving eng _ (by simp) (by simp)),
    foldl_preserving _ DraftState.current_pick_index (by simp)]

@[simp] lemma initVorpAndScarcity_counts (eng : Engine) (s : DraftState) :
    (initVorpAndScarcity eng s).drafted_count_by_pos = s.drafted_count_by_pos := by
  unfold initVorpAndScarcity
  rw [foldl_preserving _ DraftState.drafted_count_by_pos (initStep_preserving eng _ (by simp) (by simp)),
    foldl_preserving _ DraftState.drafted_count_by_pos (by simp)]

@[simp] lemma initVorpAndScarcity_num_teams (eng : Engine) (s : DraftState) :
    (initVorpAndScarcity eng s).num_teams = s.num_teams := by
  unfold initVorpAndScarcity
  rw [foldl_preserving _ DraftState.num_teams (initStep_preserving eng _ (by simp) (by simp)),
    foldl_preserving _ DraftState.num_teams (by simp)]

@[simp] lemma initVorpAndScarcity_order (eng : Engine) (s : DraftState) :
    (initVorpAndScarcity eng s).draft_order = s.draft_order := by
  unfold initVorpAndScarcity
  rw [foldl_preserving _ DraftState.draft_order (initStep_preserving eng _ (by simp) (by simp)),
    foldl_preserving _ DraftState.draft_order (by simp)]

@[simp] lemma updateVorpAndScarcity_picks (eng : Engine) (s : DraftState) (pos : PositionEnum) :
    (updateVorpAndScarcity eng s pos).picks = s.picks := by
  simp [updateVorpAndScarcity]

@[simp] lemma updateVorpAndScarcity_remaining (eng : Engine) (s : DraftState) (pos : PositionEnum) :
    (updateVorpAndScarcity eng s pos).remaining_players = s.remaining_players := by
  simp [updateVorpAndScarcity]

@[simp] lemma updateVorpAndScarcity_index (eng : Engine) (s : DraftState) (pos : PositionEnum) :
    (updateVorpAndScarcity eng s pos).current_pick_index = s.current_pick_index := by
  simp [updateVorpAndScarcity]

@[simp] lemma updateVorpAndScarcity_counts (eng : Engine) (s : DraftState) (pos : PositionEnum) :
    (updateVorpAndScarcity eng s pos).drafted_count_by_pos = s.drafted_count_by_pos := by
  simp [updateVorpAndScarcity]

@[simp] lemma updateVorpAndScarcity_num_teams (eng : Engine) (s : DraftState) (pos : PositionEnum) :
    (updateVorpAndScarcity eng s pos).num_teams = s.num_teams := by
  simp [updateVorpAndScarcity]

@[simp] lemma updateVorpAndScarcity_scoring (eng : Engine) (s : DraftState) (pos : PositionEnum) :
    (updateVorpAndScarcity eng s pos).scoring_mode = s.scoring_mode := by
  simp [updateVorpAndScarcity]

@[simp] lemma updateVorpAndScarcity_order (eng : Engine) (s : DraftState) (pos : PositionEnum) :
    (updateVorpAndScarcity eng s pos).draft_order = s.draft_order := by
  simp [updateVorpAndScarcity]

@[simp] lemma applyPickCore_picks (s : DraftState) (pid : ℕ) (player : Player) (team : ℕ) :
    (applyPickCore s pid player team).picks = s.picks ++
      [⟨s.current_pick_index, team, pid, (s.getRoundAndPick s.current_pick_index).1,
        (s.getRoundAndPick s.current_pick_index).2⟩] := rfl

@[simp] lemma applyPickCore_remaining (s : DraftState) (pid : ℕ) (player : Player) (team : ℕ) :
    (applyPickCore s pid player team).remaining_players = s.remaining_players.erase pid := rfl

@[simp] lemma applyPickCore_index (s : DraftState) (pid : ℕ) (player : Player) (team : ℕ) :
    (applyPickCore s pid player team).current_pick_index = s.current_pick_index + 1 := rfl

@[simp] lemma applyPickCore_counts (s : DraftState) (pid : ℕ) (player : Player) (team : ℕ) :
    (applyPickCore s pid player team).drafted_count_by_pos =
      Function.update s.drafted_count_by_pos player.position
        (s.drafted_count_by_pos player.position + 1) := rfl

@[simp] lemma applyPickCore_num_teams (s : DraftState) (pid : ℕ) (player : Player) (team : ℕ) :
    (applyPickCore s pid player team).num_teams = s.num_teams := rfl

@[simp] lemma applyPickCore_scoring (s : DraftState) (pid : ℕ) (player : Player) (team : ℕ) :
    (applyPickCore s pid player team).scoring_mode = s.scoring_mode := rfl

@[simp] lemma applyPickCore_order (s : DraftState) (pid : ℕ) (player : Player) (team : ℕ) :
    (applyPickCore s pid player team).draft_order = s.draft_order := rfl

lemma invariant_create (eng : Engine) (n spot : ℕ) (mode : ScoringTypeEnum) :
    Invariant eng (createDraft eng n spot mode) := by
  refine ⟨?_, ?_, ?_, ?_⟩ <;>
    simp [Invariant, draftedIds, createDraft]

lemma invariant_step (eng : Engine) (s : DraftState) (pid : ℕ)
    (hI : Invariant eng s) (hs : (makePick eng s pid).2 = none) :
    Invariant eng (makePick eng s pid).1 := by
  obtain ⟨hc, hrem, player, team, hcat, hteam, heq⟩ := makePick_success_spec eng s pid hs
  obtain ⟨hdis, hun, hlen, hcnt⟩ := hI
  rw [heq]
  have hfst : (updateTeamNeeds (updateVorpAndScarcity eng
        (applyPickCore s pid player team) player.position) team,
      (none : Option PickErr)).1 =
      updateTeamNeeds (updateVorpAndScarcity eng
        (applyPickCore s pid player team) player.position) team := rfl
  rw [hfst]
  have hdnew : draftedIds (updateTeamNeeds (updateVorpAndScarcity eng
      (applyPickCore s pid player team) player.position) team) = insert pid (draftedIds s) := by
    simp [draftedIds, Finset.union_comm, ← Finset.insert_eq]
  refine ⟨?_, ?_, ?_, ?_⟩
  · rw [hdnew]
    rw [show (updateTeamNeeds (updateVorpAndScarcity eng
      (applyPickCore s pid player team) player.position) team).remaining_players =
      s.remaining_players.erase pid by simp]
    rw [Finset.disjoint_insert_right]
    exact ⟨Finset.not_mem_erase _ _, hdis.mono_left (Finset.erase_subset _ _)⟩
  · rw [hdnew]
    rw [show (updateTeamNeeds (updateVorpAndScarcity eng
      (applyPickCore s pid player team) player.position) team).remaining_players =
      s.remaining_players.erase pid by simp]
    rw [Finset.union_insert, ← Finset.insert_union, Finset.insert_erase hrem, hun]
  · simp [hlen]
  · intro pos
    by_cases hpos : player.position = pos
    · subst hpos
      simp [Function.update_same, hcnt player.position, hcat]
    · simp only [updateTeamNeeds_picks, updateTeamNeeds_counts,
        updateVorpAndScarcity_picks, updateVorpAndScarcity_counts,
        applyPickCore_picks, applyPickCore_counts]
      rw [Function.update_noteq (Ne.symm hpos)]
      simp [hcnt pos, hcat, hpos]

/-- Every reachable state satisfies the consistency invariant. -/
lemma reachable_invariant {eng : Engine} {s : DraftState}
    (h : Reachable eng s) : Invariant eng s := by
  induction h with
  | create n spot mode => exact invariant_create eng n spot mode
  | pick s pid _ hsucc ih => exact invariant_step eng s pid ih hsucc

lemma makePick_error_unchanged (eng : Engine) (s : DraftState) (pid : ℕ) :
    ∀ e, (makePick eng s pid).2 = some e → (makePick eng s pid).1 = s := by
  intro e he
  by_cases hc : s.isDraftComplete
  · simp [makePick, hc]
  · by_cases hrem : pid ∈ s.remaining_players
    · cases hcat : eng.catalog pid with
      | none => simp [makePick, hc, hrem, hcat]
      | some player =>
        cases hteam : s.draft_order.get? s.current_pick_index with
        | none =>
          rw [List.get?_eq_getElem?] at hteam
          simp [makePick, hc, hrem, hcat, hteam]
        | some team =>
          rw [List.get?_eq_getElem?] at hteam
          simp [makePick, hc, hrem, hcat, hteam] at he
    · simp [makePick, hc, hrem]

lemma invariant_mem_exactly_one {eng : Engine} {t : DraftState} {pid : ℕ}
    (hI : Invariant eng t) (hcat : pid ∈ eng.catalogIds) :
    (pid ∈ draftedIds t ∧ pid ∉ t.remaining_players) ∨
    (pid ∉ draftedIds t ∧ pid ∈ t.remaining_players) := by
  have hmem : pid ∈ t.remaining_players ∪ draftedIds t := by
    rw [hI.2.1]; exact hcat
  rcases Finset.mem_union.1 hmem with hR | hD
  · exact Or.inr ⟨fun hD => (Finset.disjoint_left.1 hI.1) hR hD, hR⟩
  · exact Or.inl ⟨hD, fun hR => (Finset.disjoint_left.1 hI.1) hR hD⟩

/-! ### Claim theorems -/

/-- C1: `make_pick` rejects invalid picks with no state change — a completed
draft yields the `DraftComplete` error, an id outside the remaining pool the
`PlayerUnavailable` error (this covers an id already picked earlier), an id
with no catalog entry the `UnknownPlayer` error, and every error outcome
returns the input state untouched; moreover on every outcome a catalog
player id ends up in exactly one of the pick log or the remaining pool —
never both, never neither. -/
theorem c1_makePick_rejects_invalid_atomically (eng : Engine) (s : DraftState)
    (pid : ℕ) (hreach : Reachable eng s) (hcat : pid ∈ eng.catalogIds) :
    (∀ e, (makePick eng s pid).2 = some e → (makePick eng s pid).1 = s) ∧
    (s.isDraftComplete = true → (makePick eng s pid).2 = some PickErr.draftComplete) ∧
    (s.isDraftComplete = false → pid ∉ s.remaining_players →
      (makePick eng s pid).2 = some PickErr.playerUnavailable) ∧
    (s.isDraftComplete = false → pid ∈ s.remaining_players → eng.catalog pid = none →
      (makePick eng s pid).2 = some PickErr.unknownPlayer) ∧
    ((pid ∈ draftedIds (makePick eng s pid).1 ∧
        pid ∉ (makePick eng s pid).1.remaining_players) ∨
     (pid ∉ draftedIds (makePick eng s pid).1 ∧
        pid ∈ (makePick eng s pid).1.remaining_players)) := by
  refine ⟨makePick_error_unchanged eng s pid, ?_, ?_, ?_, ?_⟩
  · intro hcomp
    simp [makePick, hcomp]
  · intro hcomp hrem
    simp [makePick, hcomp, hrem]
  · intro hcomp hrem hnone
    simp [makePick, hcomp, hrem, hnone]
  · cases ho : (makePick eng s pid).2 with
    | some e =>
      rw [makePick_error_unchanged eng s pid e ho]
      exact invariant_mem_exactly_one (reachable_invariant hreach) hcat
    | none =>
      exact invariant_mem_exactly_one
        (reachable_invariant (Reachable.pick s pid hreach ho)) hcat

/-- C2: every state reachable from `create_draft` by successful picks keeps
the remaining pool disjoint from the drafted ids with their union the whole
catalog, the pick-log length equal to the pick pointer, and each
per-position drafted counter equal to the number of logged picks whose
player has that position. -/
theorem c2_reachable_state_invariants (eng : Engine) (s : DraftState)
    (h : Reachable eng s) :
    Disjoint s.remaining_players (draftedIds s) ∧
    s.remaining_players ∪ draftedIds s = eng.catalogIds ∧
    s.picks.length = s.current_pick_index ∧
    ∀ pos, s.drafted_count_by_pos pos =
      (s.picks.filter fun pk =>
        decide ((eng.catalog pk.player_id).map Player.position = some pos)).length :=
  reachable_invariant h

/-! ### Concrete witness data -/

/-- A one-player catalog used to instantiate hypothesis-bearing theorems. -/
def playerW : Player :=
  { id := 1, position := .QB, projected_points := some 100,
    projected_points_half_ppr := some 100 }

/-- A kicker, outside the eagerly-initialized key positions. -/
def playerK : Player :=
  { id := 2, position := .K, projected_points := some 40,
    projected_points_half_ppr := some 40 }

/-- Witness engine: a quarterback with id 1 and a kicker with id 2. -/
def engW : Engine :=
  { catalog := fun i => if i = 1 then some playerW
      else if i = 2 then some playerK else none,
    catalogIds := {1, 2},
    position_players := fun pos => if pos = .QB then [playerW]
      else if pos = .K then [playerK] else [] }

/-- Witness state: a fresh one-team draft over `engW`. -/
def stW : DraftState := createDraft engW 1 1 .HALF_PPR

theorem c1_witness :
    (∀ e, (makePick engW stW 1).2 = some e → (makePick engW stW 1).1 = stW) ∧
    (stW.isDraftComplete = true → (makePick engW stW 1).2 = some PickErr.draftComplete) ∧
    (stW.isDraftComplete = false → 1 ∉ stW.remaining_players →
      (makePick engW stW 1).2 = some PickErr.playerUnavailable) ∧
    (stW.isDraftComplete = false → 1 ∈ stW.remaining_players → engW.catalog 1 = none →
      (makePick engW stW 1).2 = some PickErr.unknownPlayer) ∧
    ((1 ∈ draftedIds (makePick engW stW 1).1 ∧
        1 ∉ (makePick engW stW 1).1.remaining_players) ∨
     (1 ∉ draftedIds (makePick engW stW 1).1 ∧
        1 ∈ (makePick engW stW 1).1.remaining_players)) :=
  c1_makePick_rejects_invalid_atomically engW stW 1
    (Reachable.create 1 1 .HALF_PPR) (by decide)

theorem c2_witness :
    Disjoint stW.remaining_players (draftedIds stW) ∧
    stW.remaining_players ∪ draftedIds stW = engW.catalogIds ∧
    stW.picks.length = stW.current_pick_index ∧
    ∀ pos, stW.drafted_count_by_pos pos =
      (stW.picks.filter fun pk =>
        decide ((engW.catalog pk.player_id).map Player.position = some pos)).length :=
  c2_reachable_state_invariants engW stW (Reachable.create 1 1 .HALF_PPR)

/-! ### C3: draft-order generator -/

lemma flatten_getD_uniform (N : ℕ) :
    ∀ (ls : List (List ℕ)) (r k : ℕ), (∀ l ∈ ls, l.length = N) → k < N →
      r < ls.length → ls.flatten.getD (r * N + k) 0 = (ls.getD r []).getD k 0 := by
  intro ls
  induction ls with
  | nil => intro r k _ _ hr; simp at hr
  | cons hd tl ih =>
    intro r k hlen hk hr
    have hhd : hd.length = N := hlen hd (List.mem_cons_self hd tl)
    cases r with
    | zero =>
      rw [List.flatten_cons, Nat.zero_mul, Nat.zero_add,
        List.getD_append _ _ _ _ (by rw [hhd]; exact hk)]
      rfl
    | succ r =>
      rw [List.flatten_cons]
      have harith : (r + 1) * N + k = N + (r * N + k) := by ring
      have hge : hd.length ≤ (r + 1) * N + k := by
        rw [hhd, harith]; exact Nat.le_add_right N (r * N + k)
      rw [List.getD_append_right _ _ _ _ hge]
      have hsub : (r + 1) * N + k - hd.length = r * N + k := by
        rw [hhd]; omega
      rw [hsub, List.getD_cons_succ]
      exact ih r k (fun l hl => hlen l (List.mem_cons_of_mem hd hl)) hk
        (Nat.lt_of_succ_lt_succ hr)

lemma generateDraftOrder_length (N : ℕ) (snake : Bool) :
    (generateDraftOrder N snake).length = N * 16 := by
  have key : ∀ m : ℕ,
      (((List.range m).map fun roundNum =>
        if snake && roundNum % 2 == 1 then (List.range' 1 N).reverse
        else List.range' 1 N).flatten).length = N * m := by
    intro m
    induction m with
    | zero => simp
    | succ m ih =>
      rw [List.range_succ, List.map_append, List.flatten_append, List.length_append, ih]
      have hb : (if snake && m % 2 == 1 then (List.range' 1 N).reverse
          else List.range' 1 N).length = N := by
        split <;> simp
      rw [List.map_singleton, List.flatten_singleton, hb]
      ring
  exact key 16

lemma generateDraftOrder_getD (N : ℕ) (snake : Bool) (r k : ℕ)
    (hr : r < 16) (hk : k < N) :
    (generateDraftOrder N snake).getD (r * N + k) 0 =
      if snake = true ∧ r % 2 = 1 then N - k else 1 + k := by
  unfold generateDraftOrder
  rw [flatten_getD_uniform N _ r k ?hlen hk ?hrr]
  case hlen =>
    intro l hl
    obtain ⟨rn, _, rfl⟩ := List.mem_map.1 hl
    split <;> simp
  case hrr => simpa using hr
  have hmap : ((List.range 16).map fun roundNum =>
      if snake && roundNum % 2 == 1 then (List.range' 1 N).reverse
      else List.range' 1 N).getD r [] =
      (if snake && r % 2 == 1 then (List.range' 1 N).reverse
       else List.range' 1 N) := by
    rw [List.getD_eq_getElem _ _ (by simpa using hr), List.getElem_map, List.getElem_range]
  rw [hmap]
  by_cases hsn : snake = true ∧ r % 2 = 1
  · have hb : (snake && r % 2 == 1) = true := by
      simp [hsn.1, hsn.2]
    rw [hb, if_pos rfl, if_pos hsn]
    have hk2 : k < (List.range' 1 N).reverse.length := by simpa using hk
    rw [List.getD_eq_getElem _ _ hk2, List.getElem_reverse, List.getElem_range'_1]
    simp only [List.length_range']
    omega
  · have hb : (snake && r % 2 == 1) = false := by
      rcases Bool.eq_false_or_eq_true snake with h | h
      · have hne : ¬r % 2 = 1 := fun hc => hsn ⟨h, hc⟩
        simp [h]
        omega
      · simp [h]
    rw [hb, if_neg (by simp), if_neg hsn]
    rw [List.getD_eq_getElem _ _ (by simpa using hk), List.getElem_range'_1]

/-- Scenario state for the 12-team snake-draft checks: a 12-team draft
created over the witness catalog, user at spot 5. -/
def st12 : DraftState := createDraft engW 12 5 .HALF_PPR

/-- C3: the draft order has length `teams × 16`; at every pick index the
team is `pick_in_round` when the 1-indexed round (per `get_round_and_pick`)
is odd or snake is off, and `teams + 1 − pick_in_round` when snake is on and
the round is even; concretely, in a 12-team snake draft pick index 12
(round 2, pick 1) belongs to team 12 and pick index 24 (round 3, pick 1) to
team 1. -/
theorem c3_draft_order_structure (N : ℕ) (hN : 0 < N) (snake : Bool)
    (s : DraftState) (hs : s.num_teams = N) :
    (generateDraftOrder N snake).length = N * 16 ∧
    (∀ i, i < N * 16 →
      (generateDraftOrder N snake).getD i 0 =
        if snake = true ∧ (s.getRoundAndPick i).1 % 2 = 0
        then N + 1 - (s.getRoundAndPick i).2
        else (s.getRoundAndPick i).2) ∧
    st12.draft_order.getD 12 0 = 12 ∧ st12.getRoundAndPick 12 = (2, 1) ∧
    st12.draft_order.getD 24 0 = 1 ∧ st12.getRoundAndPick 24 = (3, 1) := by
  refine ⟨generateDraftOrder_length N snake, ?_, by decide, by decide, by decide, by decide⟩
  intro i hi
  have hk : i % N < N := Nat.mod_lt _ hN
  have hr : i / N < 16 := by
    rw [Nat.mul_comm N 16] at hi
    exact (Nat.div_lt_iff_lt_mul hN).2 hi
  have hidx : (i / N) * N + i % N = i := by
    rw [Nat.mul_comm]; exact Nat.div_add_mod i N
  have hmain := generateDraftOrder_getD N snake (i / N) (i % N) hr hk
  rw [hidx] at hmain
  rw [hmain]
  simp only [DraftState.getRoundAndPick, hs]
  cases snake with
  | false =>
    simp only [Bool.false_eq_true, false_and, if_false]
    omega
  | true =>
    simp only [eq_self_iff_true, true_and]
    by_cases hpar : (i / N) % 2 = 1
    · rw [if_pos hpar, if_pos (by omega)]
      omega
    · rw [if_neg hpar, if_neg (by omega)]
      omega

theorem c3_witness :
    (generateDraftOrder 12 true).length = 12 * 16 ∧
    (∀ i, i < 12 * 16 →
      (generateDraftOrder 12 true).getD i 0 =
        if true = true ∧ (st12.getRoundAndPick i).1 % 2 = 0
        then 12 + 1 - (st12.getRoundAndPick i).2
        else (st12.getRoundAndPick i).2) ∧
    st12.draft_order.getD 12 0 = 12 ∧ st12.getRoundAndPick 12 = (2, 1) ∧
    st12.draft_order.getD 24 0 = 1 ∧ st12.getRoundAndPick 24 = (3, 1) :=
  c3_draft_order_structure 12 (by decide) true st12 (by decide)

/-! ### C9: lazy-ensure idempotence -/

lemma calculatePositionScarcity_cache_isSome (eng : Engine) (s : DraftState)
    (pos : PositionEnum) :
    ((calculatePositionScarcity eng s pos).scarcity_cache pos).isSome = true := by
  simp [calculatePositionScarcity, Function.update_same]

lemma ensureVorpCalculated_of_isSome (eng : Engine) (t : DraftState) (pos : PositionEnum)
    (h : (t.scarcity_cache pos).isSome = true) :
    ensureVorpCalculated eng t pos = t := by
  rw [ensureVorpCalculated, if_pos h]

/-- C9: `ensure_vorp_calculated` is idempotent — the second call finds the
scarcity cache populated (the first call always writes it) and returns the
state unchanged, so replacement level, VORP cache and scarcity metrics are
identical after one call and after two. -/
theorem c9_ensure_vorp_idempotent (eng : Engine) (s : DraftState) (pos : PositionEnum) :
    ensureVorpCalculated eng (ensureVorpCalculated eng s pos) pos =
      ensureVorpCalculated eng s pos := by
  by_cases h : (s.scarcity_cache pos).isSome = true
  · rw [ensureVorpCalculated_of_isSome eng s pos h]
    exact ensureVorpCalculated_of_isSome eng s pos h
  · apply ensureVorpCalculated_of_isSome
    rw [ensureVorpCalculated, if_neg h]
    exact calculatePositionScarcity_cache_isSome eng _ pos

/-! ### C10: negative replacement index and Python tail indexing -/

/-- C10: in `_calculate_replacement_level` the zero fallback fires when the
replacement index is at least the remaining count; when over-drafting has
driven the index negative and the remaining list has at least `|index|`
elements, Python negative indexing reads the entry `index + length` from the
sorted remaining list (an entry counted from the tail) and its projected
points — not zero — become the replacement level. -/
theorem c10_negative_index_tail_read (eng : Engine) (s : DraftState) (pos : PositionEnum) :
    (((remainingAtPos eng s pos).length : ℤ) ≤ replacementIdx s pos →
      (calculateReplacementLevel eng s pos).replacement_levels pos = some 0) ∧
    (replacementIdx s pos < 0 →
      0 ≤ replacementIdx s pos + (remainingAtPos eng s pos).length →
      ∃ p, pyIndex (remainingAtPos eng s pos) (replacementIdx s pos) = some p ∧
        (remainingAtPos eng s pos).get?
          (replacementIdx s pos + (remainingAtPos eng s pos).length).toNat = some p ∧
        (calculateReplacementLevel eng s pos).replacement_levels pos =
          some (projPointsOr0 p s.scoring_mode)) := by
  constructor
  · intro hge
    rw [calculateReplacementLevel]
    rw [replacementPointsFor, if_neg (not_lt.2 hge)]
    exact Function.update_same _ _ _
  · intro hneg hlen
    have hn : (replacementIdx s pos + (remainingAtPos eng s pos).length).toNat <
        (remainingAtPos eng s pos).length := by omega
    have hget : (remainingAtPos eng s pos).get?
        (replacementIdx s pos + (remainingAtPos eng s pos).length).toNat =
        some ((remainingAtPos eng s pos).get
          ⟨(replacementIdx s pos + (remainingAtPos eng s pos).length).toNat, hn⟩) :=
      List.get?_eq_get hn
    have hpy : pyIndex (remainingAtPos eng s pos) (replacementIdx s pos) =
        some ((remainingAtPos eng s pos).get
          ⟨(replacementIdx s pos + (remainingAtPos eng s pos).length).toNat, hn⟩) := by
      rw [pyIndex, if_neg (by omega), if_pos (by omega)]
      exact hget
    refine ⟨_, hpy, hget, ?_⟩
    have hlt : replacementIdx s pos < ((remainingAtPos eng s pos).length : ℤ) := by omega
    simp only [calculateReplacementLevel, replacementPointsFor, if_pos hlt, hpy,
      Function.update_same]
    simp

/-- Quarterback records for the concrete counterexample/witness catalogs. -/
def qbC (i : ℕ) (pts : ℚ) : Player :=
  { id := i, position := .QB, projected_points := some pts,
    projected_points_half_ppr := some pts }

/-- Engine for the C10 witness: three quarterbacks worth 10, 8 and 6 points. -/
def engC10 : Engine :=
  { catalog := fun i => if i = 1 then some (qbC 1 10)
      else if i = 2 then some (qbC 2 8)
      else if i = 3 then some (qbC 3 6) else none,
    catalogIds := {1, 2, 3},
    position_players := fun pos =>
      if pos = .QB then [qbC 1 10, qbC 2 8, qbC 3 6] else [] }

/-- State for the C10 witness: a 1-team draft in which six quarterbacks have
already been counted drafted, driving the replacement index to
`(1·1 + 3) − 6 = −2` with three quarterbacks still remaining. -/
def stC10 : DraftState :=
  { num_teams := 1, draft_spot := 1, snake := true, scoring_mode := .HALF_PPR,
    remaining_players := {1, 2, 3},
    drafted_count_by_pos := fun pos => if pos = .QB then 6 else 0 }

theorem c10_witness :
    (replacementIdx stC10 .QB < 0 ∧
      0 ≤ replacementIdx stC10 .QB + (remainingAtPos engC10 stC10 .QB).length) ∧
    (∃ p, pyIndex (remainingAtPos engC10 stC10 .QB) (replacementIdx stC10 .QB) = some p ∧
      (remainingAtPos engC10 stC10 .QB).get?
        (replacementIdx stC10 .QB + (remainingAtPos engC10 stC10 .QB).length).toNat = some p ∧
      (calculateReplacementLevel engC10 stC10 .QB).replacement_levels .QB =
        some (projPointsOr0 p stC10.scoring_mode)) :=
  ⟨⟨by decide, by decide⟩,
    (c10_negative_index_tail_read engC10 stC10 .QB).2 (by decide) (by decide)⟩

/-! ### C5: VORP cache formula and non-negativity -/

@[simp] lemma calculatePositionVorp_cache (eng : Engine) (s : DraftState) (pos : PositionEnum) :
    (calculatePositionVorp eng s pos).vorp_cache =
      setVorps ((s.replacement_levels pos).getD 0) s.scoring_mode s.remaining_players
        (eng.position_players pos) s.vorp_cache := rfl

@[simp] lemma applyPickCore_vorp (s : DraftState) (pid : ℕ) (player : Player) (team : ℕ) :
    (applyPickCore s pid player team).vorp_cache = s.vorp_cache := rfl

lemma setVorps_not_mem (repl : ℚ) (mode : ScoringTypeEnum) (remaining : Finset ℕ)
    (l : List Player) (c : ℕ → Option ℚ) (pid : ℕ) (h : pid ∉ l.map Player.id) :
    setVorps repl mode remaining l c pid = c pid := by
  induction l generalizing c with
  | nil => rfl
  | cons q rest ih =>
    have hq : pid ≠ q.id := by
      intro he; exact h (by simp [he])
    have hrest : pid ∉ rest.map Player.id := by
      intro he; exact h (by simp [he])
    rw [setVorps]
    split
    · rw [ih _ hrest, Function.update_noteq hq]
    · exact ih _ hrest

lemma setVorps_mem (repl : ℚ) (mode : ScoringTypeEnum) (remaining : Finset ℕ)
    (l : List Player) (c : ℕ → Option ℚ) (p : Player)
    (hnodup : (l.map Player.id).Nodup) (hp : p ∈ l) (hrem : p.id ∈ remaining) :
    setVorps repl mode remaining l c p.id =
      some (max 0 (vorpProjection p mode - repl)) := by
  induction l generalizing c with
  | nil => cases hp
  | cons q rest ih =>
    rcases List.mem_cons.1 hp with rfl | hp2
    · have hq : p.id ∉ rest.map Player.id := by
        have := hnodup
        simp only [List.map_cons, List.nodup_cons] at this
        exact this.1
      rw [setVorps, if_pos hrem, setVorps_not_mem _ _ _ _ _ _ hq, Function.update_same]
    · have htl : (rest.map Player.id).Nodup := by
        simp only [List.map_cons, List.nodup_cons] at hnodup
        exact hnodup.2
      rw [setVorps]
      split <;> exact ih _ htl hp2

lemma setVorps_nonneg (repl : ℚ) (mode : ScoringTypeEnum) (remaining : Finset ℕ)
    (l : List Player) (c : ℕ → Option ℚ)
    (hc : ∀ pid v, c pid = some v → 0 ≤ v) :
    ∀ pid v, setVorps repl mode remaining l c pid = some v → 0 ≤ v := by
  induction l generalizing c with
  | nil => exact hc
  | cons q rest ih =>
    intro pid v hv
    rw [setVorps] at hv
    revert hv
    split
    · intro hv
      refine ih _ ?_ pid v hv
      intro pid2 v2 hv2
      by_cases hq : pid2 = q.id
      · subst hq
        rw [Function.update_same] at hv2
        cases hv2
        exact le_max_left 0 _
      · rw [Function.update_noteq hq] at hv2
        exact hc pid2 v2 hv2
    · intro hv
      exact ih _ hc pid v hv

/-- Every value held in the VORP cache is non-negative. -/
def VorpNonneg (s : DraftState) : Prop :=
  ∀ pid v, s.vorp_cache pid = some v → 0 ≤ v

lemma foldl_pred {β : Type} (f : DraftState → β → DraftState) (P : DraftState → Prop)
    (hf : ∀ st b, P st → P (f st b)) :
    ∀ (l : List β) (st : DraftState), P st → P (l.foldl f st) := by
  intro l
  induction l with
  | nil => intro st h; exact h
  | cons hd tl ih => intro st h; rw [List.foldl_cons]; exact ih _ (hf st hd h)

lemma calculatePositionVorp_vorpNonneg (eng : Engine) (s : DraftState) (pos : PositionEnum)
    (h : VorpNonneg s) : VorpNonneg (calculatePositionVorp eng s pos) := by
  intro pid v hv
  rw [calculatePositionVorp_cache] at hv
  exact setVorps_nonneg _ _ _ _ _ h pid v hv

lemma reachable_vorpNonneg {eng : Engine} {s : DraftState}
    (h : Reachable eng s) : VorpNonneg s := by
  induction h with
  | create n spot mode =>
    unfold createDraft initVorpAndScarcity
    apply foldl_pred _ VorpNonneg
    · intro st pos hst
      split
      · exact hst
      · intro pid v hv
        rw [calculatePositionScarcity_vorp] at hv
        exact calculatePositionVorp_vorpNonneg eng st pos hst pid v hv
    · apply foldl_pred _ VorpNonneg
      · intro st pos hst
        intro pid v hv
        rw [calculateReplacementLevel_vorp] at hv
        exact hst pid v hv
      · intro pid v hv
        simp at hv
  | pick s pid hre hsucc ih =>
    obtain ⟨hc, hrem, player, team, hcat, hteam, heq⟩ := makePick_success_spec eng s pid hsucc
    rw [heq]
    intro pid2 v hv
    simp only [updateTeamNeeds_vorp, updateVorpAndScarcity, calculatePositionScarcity_vorp,
      calculatePositionVorp_cache, calculateReplacementLevel_vorp, applyPickCore_vorp,
      calculateReplacementLevel_remaining, calculateReplacementLevel_scoring,
      applyPickCore_remaining, applyPickCore_scoring] at hv
    exact setVorps_nonneg _ _ _ _ _ ih pid2 v hv

/-- C5: after the VORP recomputation triggered by a pick
(`_update_vorp_and_scarcity`) or by lazy materialization
(`ensure_vorp_calculated` on an uncached position), every remaining player
at the affected position has cached VORP `max(0, projection −
replacement_level)` against that position's current replacement level; and
in every reachable state no cached VORP value is negative. -/
theorem c5_vorp_formula_and_nonneg (eng : Engine) (s : DraftState) (pos : PositionEnum)
    (hnodup : ((eng.position_players pos).map Player.id).Nodup)
    (hreach : Reachable eng s) :
    (∀ p, p ∈ eng.position_players pos → p.id ∈ s.remaining_players →
      (updateVorpAndScarcity eng s pos).vorp_cache p.id =
        some (max 0 (vorpProjection p s.scoring_mode -
          ((updateVorpAndScarcity eng s pos).replacement_levels pos).getD 0))) ∧
    ((s.scarcity_cache pos).isSome = false →
      ∀ p, p ∈ eng.position_players pos → p.id ∈ s.remaining_players →
      (ensureVorpCalculated eng s pos).vorp_cache p.id =
        some (max 0 (vorpProjection p s.scoring_mode -
          ((ensureVorpCalculated eng s pos).replacement_levels pos).getD 0))) ∧
    (∀ pid v, s.vorp_cache pid = some v → 0 ≤ v) := by
  refine ⟨?_, ?_, reachable_vorpNonneg hreach⟩
  · intro p hp hrem
    simp only [updateVorpAndScarcity, calculatePositionScarcity_vorp,
      calculatePositionScarcity_levels, calculatePositionVorp_cache,
      calculatePositionVorp_levels, calculateReplacementLevel_remaining,
      calculateReplacementLevel_scoring]
    exact setVorps_mem _ _ _ _ _ p hnodup hp hrem
  · intro hnot p hp hrem
    rw [ensureVorpCalculated, if_neg (by simp [hnot])]
    simp only [calculatePositionScarcity_vorp, calculatePositionScarcity_levels,
      calculatePositionVorp_cache, calculatePositionVorp_levels]
    by_cases hl : (s.replacement_levels pos).isSome = true
    · rw [if_pos hl]
      exact setVorps_mem _ _ _ _ _ p hnodup hp hrem
    · rw [if_neg hl]
      simp only [calculateReplacementLevel_remaining, calculateReplacementLevel_scoring]
      exact setVorps_mem _ _ _ _ _ p hnodup hp hrem

theorem c5_witness :
    (∀ p, p ∈ engW.position_players .K → p.id ∈ stW.remaining_players →
      (updateVorpAndScarcity engW stW .K).vorp_cache p.id =
        some (max 0 (vorpProjection p stW.scoring_mode -
          ((updateVorpAndScarcity engW stW .K).replacement_levels .K).getD 0))) ∧
    ((stW.scarcity_cache .K).isSome = false →
      ∀ p, p ∈ engW.position_players .K → p.id ∈ stW.remaining_players →
      (ensureVorpCalculated engW stW .K).vorp_cache p.id =
        some (max 0 (vorpProjection p stW.scoring_mode -
          ((ensureVorpCalculated engW stW .K).replacement_levels .K).getD 0))) ∧
    (∀ pid v, stW.vorp_cache pid = some v → 0 ≤ v) :=
  c5_vorp_formula_and_nonneg engW stW .K (by decide)
    (Reachable.create 1 1 .HALF_PPR)

/-! ### C6: scarcity metrics -/

/-- C6: `_calculate_position_scarcity` caches, for a non-empty remaining
pool, the mean cached VORP of the first `min 10 n` remaining players (under
the VORP-descending ordering hypothesis these are the top players: every
kept player dominates every dropped one), the score
`avg × sqrt(teams) / max(remaining, 1)`, and an urgency flag equivalent to
`score > 2 ∨ dropoff > 0.15`; an empty pool yields the all-zero, non-urgent
record instead of an error. -/
theorem c6_scarcity_metrics (eng : Engine) (s : DraftState) (pos : PositionEnum)
    (hsort : (remainingAtPos eng s pos).Sorted
      (fun a b => (s.vorp_cache b.id).getD 0 ≤ (s.vorp_cache a.id).getD 0)) :
    (remainingAtPos eng s pos = [] →
      (calculatePositionScarcity eng s pos).scarcity_cache pos =
        some { position := pos, avg_vorp_remaining := 0, dropoff_at_next_tier := 0,
               scarcity_score := 0, urgency_flag := false,
               replacement_level := (s.replacement_levels pos).getD 0,
               players_remaining := 0 }) ∧
    (remainingAtPos eng s pos ≠ [] → ∃ m,
      (calculatePositionScarcity eng s pos).scarcity_cache pos = some m ∧
      m.avg_vorp_remaining = (((remainingAtPos eng s pos).take 10).map fun p =>
        (s.vorp_cache p.id).getD 0).sum / ((min 10 (remainingAtPos eng s pos).length : ℕ) : ℚ) ∧
      (∀ p ∈ (remainingAtPos eng s pos).take 10, ∀ q ∈ (remainingAtPos eng s pos).drop 10,
        (s.vorp_cache q.id).getD 0 ≤ (s.vorp_cache p.id).getD 0) ∧
      m.scarcity_score = m.avg_vorp_remaining * eng.sqrtQ s.num_teams /
        ((max (remainingAtPos eng s pos).length 1 : ℕ) : ℚ) ∧
      m.dropoff_at_next_tier = tierDropoff s.vorp_cache (remainingAtPos eng s pos) ∧
      (m.urgency_flag = true ↔
        2 < m.scarcity_score ∨ (15 : ℚ) / 100 < m.dropoff_at_next_tier) ∧
      m.players_remaining = (remainingAtPos eng s pos).length ∧
      m.replacement_level = (s.replacement_levels pos).getD 0) := by
  constructor
  · intro hempty
    simp only [calculatePositionScarcity, hempty, List.isEmpty_nil, if_true,
      Function.update_same]
  · intro hne
    have hb : (remainingAtPos eng s pos).isEmpty = false := by
      cases hR : remainingAtPos eng s pos with
      | nil => exact absurd hR hne
      | cons a l => rfl
    have hdom : ∀ p ∈ (remainingAtPos eng s pos).take 10,
        ∀ q ∈ (remainingAtPos eng s pos).drop 10,
        (s.vorp_cache q.id).getD 0 ≤ (s.vorp_cache p.id).getD 0 := by
      have hps := hsort
      rw [show remainingAtPos eng s pos =
        (remainingAtPos eng s pos).take 10 ++ (remainingAtPos eng s pos).drop 10
        from (List.take_append_drop 10 _).symm] at hps
      exact fun p hp q hq => (List.pairwise_append.1 hps).2.2 p hp q hq
    refine ⟨(⟨pos,
      (((remainingAtPos eng s pos).take 10).map fun p =>
        (s.vorp_cache p.id).getD 0).sum / (((remainingAtPos eng s pos).take 10).length : ℚ),
      tierDropoff s.vorp_cache (remainingAtPos eng s pos),
      ((((remainingAtPos eng s pos).take 10).map fun p =>
        (s.vorp_cache p.id).getD 0).sum / (((remainingAtPos eng s pos).take 10).length : ℚ)) *
        eng.sqrtQ s.num_teams / ((max (remainingAtPos eng s pos).length 1 : ℕ) : ℚ),
      decide (2 < ((((remainingAtPos eng s pos).take 10).map fun p =>
        (s.vorp_cache p.id).getD 0).sum / (((remainingAtPos eng s pos).take 10).length : ℚ)) *
        eng.sqrtQ s.num_teams / ((max (remainingAtPos eng s pos).length 1 : ℕ) : ℚ)) ||
        decide ((15 : ℚ) / 100 < tierDropoff s.vorp_cache (remainingAtPos eng s pos)),
      (s.replacement_levels pos).getD 0,
      (remainingAtPos eng s pos).length⟩ : ScarcityMetrics),
      ?_, ?_, hdom, ?_, ?_, ?_, ?_, ?_⟩
    · simp only [calculatePositionScarcity, hb, Bool.false_eq_true, if_false,
        Function.update_same]
    · simp only [List.length_take]
    · rfl
    · rfl
    · simp only [Bool.or_eq_true, decide_eq_true_eq]
    · rfl
    · rfl

theorem c6_witness :
    (remainingAtPos engW stW .QB = [] →
      (calculatePositionScarcity engW stW .QB).scarcity_cache .QB =
        some { position := .QB, avg_vorp_remaining := 0, dropoff_at_next_tier := 0,
               scarcity_score := 0, urgency_flag := false,
               replacement_level := (stW.replacement_levels .QB).getD 0,
               players_remaining := 0 }) ∧
    (remainingAtPos engW stW .QB ≠ [] → ∃ m,
      (calculatePositionScarcity engW stW .QB).scarcity_cache .QB = some m ∧
      m.avg_vorp_remaining = (((remainingAtPos engW stW .QB).take 10).map fun p =>
        (stW.vorp_cache p.id).getD 0).sum / ((min 10 (remainingAtPos engW stW .QB).length : ℕ) : ℚ) ∧
      (∀ p ∈ (remainingAtPos engW stW .QB).take 10, ∀ q ∈ (remainingAtPos engW stW .QB).drop 10,
        (stW.vorp_cache q.id).getD 0 ≤ (stW.vorp_cache p.id).getD 0) ∧
      m.scarcity_score = m.avg_vorp_remaining * engW.sqrtQ stW.num_teams /
        ((max (remainingAtPos engW stW .QB).length 1 : ℕ) : ℚ) ∧
      m.dropoff_at_next_tier = tierDropoff stW.vorp_cache (remainingAtPos engW stW .QB) ∧
      (m.urgency_flag = true ↔
        2 < m.scarcity_score ∨ (15 : ℚ) / 100 < m.dropoff_at_next_tier) ∧
      m.players_remaining = (remainingAtPos engW stW .QB).length ∧
      m.replacement_level = (stW.replacement_levels .QB).getD 0) :=
  c6_scarcity_metrics engW stW .QB (by decide)

/-! ### C4: replacement level under successive picks -/

lemma eraseIdx_get?_of_le {α : Type} (l : List α) (j i : ℕ) (hj : j ≤ i) :
    (l.eraseIdx j).get? i = l.get? (i + 1) := by
  induction l generalizing j i with
  | nil => simp [List.eraseIdx]
  | cons a t ih =>
    cases j with
    | zero => simp [List.eraseIdx]
    | succ j =>
      cases i with
      | zero => omega
      | succ i =>
        simp only [List.eraseIdx, List.get?_cons_succ]
        exact ih j i (by omega)

/-- Removing a player ranked strictly above the replacement index and
decrementing the index (exactly what a successful pick at the position does
to the sorted remaining list) leaves the replacement value unchanged. -/
lemma replacementPointsFor_eraseIdx (mode : ScoringTypeEnum) (l : List Player)
    (j : ℕ) (idx : ℤ) (hj : j < l.length) (hlt : (j : ℤ) < idx) :
    replacementPointsFor mode (l.eraseIdx j) (idx - 1) =
      replacementPointsFor mode l idx := by
  have hlen : (l.eraseIdx j).length = l.length - 1 := List.length_eraseIdx_of_lt hj
  unfold replacementPointsFor
  by_cases hidx : idx < (l.length : ℤ)
  · rw [if_pos (by rw [hlen]; omega), if_pos hidx]
    have h0 : 0 ≤ idx - 1 := by omega
    rw [pyIndex, if_pos h0, pyIndex, if_pos (by omega)]
    have hj2 : j ≤ (idx - 1).toNat := by omega
    rw [eraseIdx_get?_of_le _ _ _ hj2]
    have hsucc : (idx - 1).toNat + 1 = idx.toNat := by omega
    rw [hsucc]
  · rw [if_neg (by rw [hlen]; omega), if_neg hidx]

lemma filter_ne_eq_eraseIdx (R : List Player) (pid : ℕ) :
    ∀ (j : ℕ) (hj : j < R.length), (R.get ⟨j, hj⟩).id = pid →
    (R.map Player.id).Nodup →
    (R.filter fun p => decide ¬p.id = pid) = R.eraseIdx j := by
  induction R with
  | nil => intro j hj; simp at hj
  | cons a t ih =>
    intro j hj hid hnd
    have hnd2 : a.id ∉ t.map Player.id ∧ (t.map Player.id).Nodup := by
      simpa using hnd
    cases j with
    | zero =>
      have ha : a.id = pid := hid
      rw [List.eraseIdx_cons_zero, List.filter_cons_of_neg (by simp [ha])]
      apply List.filter_eq_self.2
      intro p hp
      have hne : ¬p.id = pid := by
        intro he
        exact hnd2.1 (by rw [ha, ← he]; exact List.mem_map_of_mem _ hp)
      simpa using hne
    | succ j =>
      have hj2 : j < t.length := by simpa using Nat.lt_of_succ_lt_succ hj
      have hid2 : (t.get ⟨j, hj2⟩).id = pid := hid
      have ha : ¬a.id = pid := by
        intro he
        refine hnd2.1 ?_
        rw [he, ← hid2]
        exact List.mem_map_of_mem _ (t.get_mem _ _)
      rw [List.eraseIdx_cons_succ, List.filter_cons_of_pos (by simpa using ha)]
      rw [ih j hj2 hid2 hnd2.2]

/-- Erasing the picked player from the remaining set removes exactly its
entry from the position's remaining list (catalog ids are unique). -/
lemma remainingAtPos_after_erase (eng : Engine) (s : DraftState) (pos : PositionEnum)
    (pid : ℕ) (j : ℕ)
    (hnodup : ((eng.position_players pos).map Player.id).Nodup)
    (hj : j < (remainingAtPos eng s pos).length)
    (hjid : ((remainingAtPos eng s pos).get ⟨j, hj⟩).id = pid) :
    ((eng.position_players pos).filter fun p =>
      decide (p.id ∈ s.remaining_players.erase pid)) =
      (remainingAtPos eng s pos).eraseIdx j := by
  have hsplit : ∀ p ∈ eng.position_players pos,
      (decide (p.id ∈ s.remaining_players.erase pid)) =
        (decide ¬p.id = pid && decide (p.id ∈ s.remaining_players)) := by
    intro p _
    by_cases h1 : p.id ∈ s.remaining_players <;> by_cases h2 : p.id = pid <;>
      simp [Finset.mem_erase, h1, h2]
  rw [List.filter_congr hsplit, ← List.filter_filter]
  exact filter_ne_eq_eraseIdx (remainingAtPos eng s pos) pid j hj hjid
    (hnodup.sublist ((List.filter_sublist _).map _))

lemma replacementIdx_applyPickCore (s : DraftState) (pid : ℕ) (player : Player)
    (team : ℕ) :
    replacementIdx (applyPickCore s pid player team) player.position =
      replacementIdx s player.position - 1 := by
  unfold replacementIdx
  rw [show (applyPickCore s pid player team).drafted_count_by_pos player.position =
    s.drafted_count_by_pos player.position + 1 from by
      rw [applyPickCore_counts, Function.update_same]]
  rw [show (applyPickCore s pid player team).num_teams = s.num_teams from rfl]
  push_cast
  ring

/-- C4 (amended): the replacement level recomputed for the affected position
by a successful pick equals the level recomputed from the pre-pick state
(hence is not increased) whenever the picked player sits strictly above the
replacement index in the sorted remaining list; the unqualified claim fails
(see the counterexample) because drafting a player at or below the
replacement index shifts a better player into the replacement slot. -/
theorem c4_replacement_level_pick (eng : Engine) (s : DraftState) (pid : ℕ)
    (player : Player) (j : ℕ)
    (hsucc : (makePick eng s pid).2 = none)
    (hcat : eng.catalog pid = some player)
    (hnodup : ((eng.position_players player.position).map Player.id).Nodup)
    (hj : j < (remainingAtPos eng s player.position).length)
    (hjid : ((remainingAtPos eng s player.position).get ⟨j, hj⟩).id = pid)
    (hlt : (j : ℤ) < replacementIdx s player.position)
    (hcache : s.replacement_levels player.position =
      some (replacementPointsFor s.scoring_mode (remainingAtPos eng s player.position)
        (replacementIdx s player.position))) :
    (makePick eng s pid).1.replacement_levels player.position =
      s.replacement_levels player.position := by
  obtain ⟨hc, hrem, player2, team, hcat2, hteam, heq⟩ := makePick_success_spec eng s pid hsucc
  rw [hcat] at hcat2
  injection hcat2 with hpe
  subst hpe
  rw [heq]
  have hfst : (updateTeamNeeds (updateVorpAndScarcity eng
        (applyPickCore s pid player team) player.position) team,
      (none : Option PickErr)).1 =
      updateTeamNeeds (updateVorpAndScarcity eng
        (applyPickCore s pid player team) player.position) team := rfl
  rw [hfst]
  have hlevels : (updateTeamNeeds (updateVorpAndScarcity eng
      (applyPickCore s pid player team) player.position) team).replacement_levels
        player.position =
      some (replacementPointsFor (applyPickCore s pid player team).scoring_mode
        (remainingAtPos eng (applyPickCore s pid player team) player.position)
        (replacementIdx (applyPickCore s pid player team) player.position)) := by
    simp only [updateTeamNeeds_levels, updateVorpAndScarcity,
      calculatePositionScarcity_levels, calculatePositionVorp_levels,
      calculateReplacementLevel, Function.update_same]
  rw [hlevels]
  have hrem2 : remainingAtPos eng (applyPickCore s pid player team) player.position =
      (remainingAtPos eng s player.position).eraseIdx j := by
    unfold remainingAtPos
    rw [show (applyPickCore s pid player team).remaining_players =
      s.remaining_players.erase pid from rfl]
    exact remainingAtPos_after_erase eng s player.position pid j hnodup hj hjid
  rw [show (applyPickCore s pid player team).scoring_mode = s.scoring_mode from rfl,
    hrem2, replacementIdx_applyPickCore,
    replacementPointsFor_eraseIdx s.scoring_mode _ j _ hj hlt, hcache]

/-- Engine for the C4 counterexample: five quarterbacks worth
100, 90, 80, 10 and 5 points, sorted descending as the catalog keeps them. -/
def engC4 : Engine :=
  { catalog := fun i => if i = 1 then some (qbC 1 100)
      else if i = 2 then some (qbC 2 90)
      else if i = 3 then some (qbC 3 80)
      else if i = 4 then some (qbC 4 10)
      else if i = 5 then some (qbC 5 5) else none,
    catalogIds := {1, 2, 3, 4, 5},
    position_players := fun pos => if pos = .QB
      then [qbC 1 100, qbC 2 90, qbC 3 80, qbC 4 10, qbC 5 5] else [] }

/-- One-team draft over `engC4` after the three top quarterbacks are picked:
the replacement index is `(1·1 + 3) − 3 = 1` and the remaining quarterbacks
are worth `[10, 5]`. -/
def stC4a : DraftState := createDraft engC4 1 1 .HALF_PPR

def stC4b : DraftState := (makePick engC4 stC4a 1).1

def stC4c : DraftState := (makePick engC4 stC4b 2).1

def stC4d : DraftState := (makePick engC4 stC4c 3).1

/-- C4 counterexample: from the reachable state `stC4d` (catalog sorted by
projected points descending), successfully picking the 5-point quarterback
raises the cached replacement level for QB from 5 to 10 — the replacement
level after the pick is **not** less than or equal to the level before. -/
theorem c4_counterexample :
    Reachable engC4 stC4d ∧
    (engC4.position_players .QB).Sorted
      (fun a b => projPointsOr0 b .HALF_PPR ≤ projPointsOr0 a .HALF_PPR) ∧
    (engC4.catalog 5).map Player.position = some .QB ∧
    (makePick engC4 stC4d 5).2 = none ∧
    stC4d.replacement_levels .QB = some 5 ∧
    (makePick engC4 stC4d 5).1.replacement_levels .QB = some 10 ∧
    ¬((10 : ℚ) ≤ 5) := by
  refine ⟨?_, by decide, by decide, by decide, by decide, by decide, by decide⟩
  exact Reachable.pick _ _ (Reachable.pick _ _ (Reachable.pick _ _
    (Reachable.create 1 1 .HALF_PPR) (by decide)) (by decide)) (by decide)

theorem c4_witness :
    (makePick engC4 stC4a 1).2 = none ∧
    ((0 : ℕ) : ℤ) < replacementIdx stC4a (qbC 1 100).position ∧
    (makePick engC4 stC4a 1).1.replacement_levels (qbC 1 100).position =
      stC4a.replacement_levels (qbC 1 100).position :=
  ⟨by decide, by decide,
    c4_replacement_level_pick engC4 stC4a 1 (qbC 1 100) 0 (by decide) (by decide)
      (by decide) (by decide) (by decide) (by decide) (by decide)⟩

/-! ### Advice layer (`get_advice` and the strategy functions)

Python's stable `list.sort(key=..., reverse=...)` is modelled by a stable
insertion sort; `random.uniform` draws, `x ** 1.5` and the learned-ADP file
are abstract engine components (see `Engine`); human-readable justification
strings and the display-only `round(x, 1)` calls are elided. -/

/-- Stable insertion into a sorted list: `x` lands after every `y` with
`le y x`, so equal keys keep their original relative order. -/
def insertSorted {α : Type} (le : α → α → Bool) (x : α) : List α → List α
  | [] => [x]
  | y :: ys => if le y x then y :: insertSorted le x ys else x :: y :: ys

/-- Stable sort (model of Python `list.sort`): insert elements left to
right.  `le a b` means `a` may stay before `b`. -/
def pySortStable {α : Type} (le : α → α → Bool) (l : List α) : List α :=
  l.foldl (fun acc x => insertSorted le x acc) []

/-- The `self._get_adp(p) or 999` (Python truthiness: a 0.0 ADP also falls back). -/
def adpOr999 (p : Player) : ℚ :=
  (pyOr (getAdp p) (some 999)).getD 999

lemma insertSorted_perm (x : ℕ) (l : List ℕ) :
    (insertSorted (fun a b => decide (a ≤ b)) x l).Perm (x :: l) := by
  induction l with
  | nil => exact List.Perm.refl _
  | cons y ys ih =>
    rw [insertSorted]
    split
    · exact (List.Perm.cons y ih).trans (List.Perm.swap x y ys)
    · exact List.Perm.refl _

lemma foldl_insertSorted_perm :
    ∀ (l acc : List ℕ),
      (l.foldl (fun acc x => insertSorted (fun a b => decide (a ≤ b)) x acc) acc).Perm
        (l ++ acc) := by
  intro l
  induction l with
  | nil => intro acc; exact List.Perm.refl _
  | cons x xs ih =>
    intro acc
    rw [List.foldl_cons]
    refine (ih _).trans ?_
    refine (List.Perm.append_left xs (insertSorted_perm x acc)).trans ?_
    exact List.perm_middle

lemma pySortStable_perm_nat (l : List ℕ) :
    (pySortStable (fun a b => decide (a ≤ b)) l).Perm l := by
  have h := foldl_insertSorted_perm l []
  rw [List.append_nil] at h
  exact h

lemma insertSorted_sorted (x : ℕ) (l : List ℕ) (h : l.Sorted (· ≤ ·)) :
    (insertSorted (fun a b => decide (a ≤ b)) x l).Sorted (· ≤ ·) := by
  induction l with
  | nil => simp [insertSorted]
  | cons y ys ih =>
    rw [List.sorted_cons] at h
    rw [insertSorted]
    split
    · rename_i hyx
      rw [List.sorted_cons]
      constructor
      · intro z hz
        rcases List.mem_cons.1 ((insertSorted_perm x ys).mem_iff.1 hz) with hz2 | hz2
        · subst hz2; simpa using hyx
        · exact h.1 z hz2
      · exact ih h.2
    · rename_i hyx
      have hxy : x ≤ y := by
        have := hyx
        simp only [decide_eq_true_eq] at this
        omega
      rw [List.sorted_cons]
      refine ⟨fun z hz => ?_, List.sorted_cons.2 h⟩
      rcases List.mem_cons.1 hz with hz2 | hz2
      · subst hz2; exact hxy
      · exact hxy.trans (h.1 z hz2)

lemma foldl_insertSorted_sorted :
    ∀ (l acc : List ℕ), acc.Sorted (· ≤ ·) →
      (l.foldl (fun acc x => insertSorted (fun a b => decide (a ≤ b)) x acc) acc).Sorted
        (· ≤ ·) := by
  intro l
  induction l with
  | nil => intro acc h; exact h
  | cons x xs ih =>
    intro acc h
    rw [List.foldl_cons]
    exact ih _ (insertSorted_sorted x acc h)

lemma pySortStable_sorted_nat (l : List ℕ) :
    (pySortStable (fun a b => decide (a ≤ b)) l).Sorted (· ≤ ·) :=
  foldl_insertSorted_sorted l [] (by simp)

/-- Ascending enumeration of a multiset of ids, computed by the stable
insertion sort (well-defined because permutations sort identically). -/
def multisetAscList (m : Multiset ℕ) : List ℕ :=
  Quot.liftOn m (fun l => pySortStable (fun a b => decide (a ≤ b)) l)
    fun l1 l2 h =>
      List.eq_of_perm_of_sorted
        ((pySortStable_perm_nat l1).trans (h.trans (pySortStable_perm_nat l2).symm))
        (pySortStable_sorted_nat l1) (pySortStable_sorted_nat l2)

/-- The available-player list handed to every strategy by `get_advice`:
`[self.players_cache[pid] for pid in draft_state.remaining_players]`.
Python iterates the set in unspecified order; modelled as ascending id
order (on reachable states every remaining id is in the cache, so the
`filterMap` drops nothing). -/
def availablePlayers (eng : Engine) (s : DraftState) : List Player :=
  (multisetAscList s.remaining_players.val).filterMap eng.catalog

/-- The `DynamicDraftEngine._get_user_next_picks`: future pick indices of a
team, first three only. -/
def getUserNextPicks (s : DraftState) (user_team_id : ℕ) : List ℕ :=
  ((List.range s.draft_order.length).filter fun i =>
    decide (s.draft_order.getD i 0 = user_team_id) &&
      decide (s.current_pick_index < i)).take 3

/-- The `position_picks_expected = max(1, picks_until_next // 12)` — the source
hard-codes 12 picks per expected position pick regardless of team count. -/
def expectedPositionPicks (picks_until_next : ℕ) : ℕ :=
  max 1 (picks_until_next / 12)

/-- The candidates considered as future replacements at a position by the
draft-advantage score: remaining players at the position, sorted by
`_get_adp(p) or 999` ascending. -/
def availableAtPosition (eng : Engine) (s : DraftState) (pos : PositionEnum) :
    List Player :=
  pySortStable (fun a b => decide (adpOr999 a ≤ adpOr999 b))
    ((availablePlayers eng s).filter fun p2 => decide (p2.position = pos))

/-- Result record of `_calculate_draft_advantage_score` (reason strings and
display rounding elided; keys absent from a branch's dict are `none`). -/
structure DasInfo where
  das : ℚ
  replacement_player : Option String := none
  replacement_points : Option ℚ := none
  picks_until_next : Option ℕ := none
  current_points : Option ℚ := none
deriving DecidableEq, Repr

/-- The `DynamicDraftEngine._calculate_draft_advantage_score`.  The
`if not next_pick_for_position` test uses Python truthiness, so a pick
index 0 would also take the last-chance branch (kept faithfully although
the candidate indices always exceed the current pointer). -/
def calculateDraftAdvantageScore (eng : Engine) (s : DraftState) (player : Player)
    (user_team_id : ℕ) : DasInfo :=
  let user_next_picks := getUserNextPicks s user_team_id
  if user_next_picks = [] then { das := 0 }
  else
    let current_player_points : ℚ :=
      match getProjectedPoints player s.scoring_mode with
      | some v => v
      | none => (s.vorp_cache player.id).getD 0 + 10
    match user_next_picks.find? (fun (i : ℕ) => decide (0 < (i : ℤ) - (s.current_pick_index : ℤ))) with
    | none => { das := current_player_points * (1 / 2), picks_until_next := some 999 }
    | some next_pick =>
      if next_pick = 0 then
        { das := current_player_points * (1 / 2), picks_until_next := some 999 }
      else
        let picks_until_next : ℕ := next_pick - s.current_pick_index
        let available_at_position := availableAtPosition eng s player.position
        let position_picks_expected := expectedPositionPicks picks_until_next
        let result : ℚ × Option String :=
          if h : position_picks_expected < available_at_position.length then
            let replacement_player := available_at_position.get ⟨position_picks_expected, h⟩
            let replacement_points : ℚ :=
              match getProjectedPoints replacement_player s.scoring_mode with
              | some v => v
              | none => (s.vorp_cache replacement_player.id).getD 0 + 8
            (replacement_points, some replacement_player.name)
          else
            (current_player_points * (6 / 10), none)
        let das := current_player_points - result.1
        let das :=
          if picks_until_next ≤ 12 then das * (8 / 10)
          else if 24 ≤ picks_until_next then das * (13 / 10)
          else das
        { das := das, replacement_player := result.2,
          replacement_points := some result.1,
          picks_until_next := some picks_until_next,
          current_points := some current_player_points }

/-- Modelled from the spec (§4.7, *Draft-advantage*): identical to
`calculateDraftAdvantageScore` except that the number of position players
expected to be taken before the team's next pick follows the spec's words —
"assuming one player per position is taken roughly every *team-count*
picks", i.e. `max 1 (picks_until // team_count)` — where the source
hard-codes `// 12`. -/
def calculateDraftAdvantageScoreSpec (eng : Engine) (s : DraftState) (player : Player)
    (user_team_id : ℕ) : DasInfo :=
  let user_next_picks := getUserNextPicks s user_team_id
  if user_next_picks = [] then { das := 0 }
  else
    let current_player_points : ℚ :=
      match getProjectedPoints player s.scoring_mode with
      | some v => v
      | none => (s.vorp_cache player.id).getD 0 + 10
    match user_next_picks.find? (fun (i : ℕ) => decide (0 < (i : ℤ) - (s.current_pick_index : ℤ))) with
    | none => { das := current_player_points * (1 / 2), picks_until_next := some 999 }
    | some next_pick =>
      if next_pick = 0 then
        { das := current_player_points * (1 / 2), picks_until_next := some 999 }
      else
        let picks_until_next : ℕ := next_pick - s.current_pick_index
        let available_at_position := availableAtPosition eng s player.position
        let position_picks_expected := max 1 (picks_until_next / s.num_teams)
        let result : ℚ × Option String :=
          if h : position_picks_expected < available_at_position.length then
            let replacement_player := available_at_position.get ⟨position_picks_expected, h⟩
            let replacement_points : ℚ :=
              match getProjectedPoints replacement_player s.scoring_mode with
              | some v => v
              | none => (s.vorp_cache replacement_player.id).getD 0 + 8
            (replacement_points, some replacement_player.name)
          else
            (current_player_points * (6 / 10), none)
        let das := current_player_points - result.1
        let das :=
          if picks_until_next ≤ 12 then das * (8 / 10)
          else if 24 ≤ picks_until_next then das * (13 / 10)
          else das
        { das := das, replacement_player := result.2,
          replacement_points := some result.1,
          picks_until_next := some picks_until_next,
          current_points := some current_player_points }

/-- One recommendation dict.  Python returns per-mode dicts with different
keys; modelled as a single record in which keys a mode does not emit stay
`none`/default.  Justification strings and display rounding are elided. -/
structure AdviceEntry where
  player_id : ℕ
  player_name : String := ""
  name : String := ""
  position : PositionEnum
  vorp : Option ℚ := none
  score : Option ℚ := none
  robust_score : Option ℚ := none
  strategic_score : Option ℚ := none
  das : Option ℚ := none
  adp : Option ℚ := none
  ecr : Option ℚ := none
  consensus_rank : Option ℚ := none
  value_multiplier : Option ℚ := none
  pick_vs_rank_diff : Option ℚ := none
  need_score : Option ℚ := none
  round : Option ℕ := none
  current_points : Option ℚ := none
  replacement_points : Option ℚ := none
  replacement_player : Option String := none
  picks_until_next : Option ℕ := none
  scarcity_flag : Bool := false
deriving DecidableEq, Repr

/-- The `p.position in scarcity_cache and scarcity_cache[p.position].urgency_flag`
(also the `.get(pos, zero-record).urgency_flag` variant — both yield `false`
for an uncached position). -/
def scarcityFlag (s : DraftState) (pos : PositionEnum) : Bool :=
  match s.scarcity_cache pos with
  | some m => m.urgency_flag
  | none => false

/-- The `p.expert_consensus_rank or 999` (Python truthiness: a rank of 0 also
falls back). -/
def ecrOr999 (p : Player) : ℚ :=
  match p.expert_consensus_rank with
  | some v => if v = 0 then 999 else (v : ℚ)
  | none => 999

/-- Per-player tuple built by the `_advice_bot_realistic` scoring loop. -/
structure BotScored where
  player : Player
  final_score : ℚ
  adp : Option ℚ
  ecr : ℚ
  need_score : ℚ
  primary_rank : ℚ
  value_multiplier : ℚ
  pick_vs_rank_diff : ℚ

/-- The scoring body of `_advice_bot_realistic` for one player; `i` is the
iteration index (one `random.uniform` call per player). -/
def botScore (eng : Engine) (s : DraftState) (roster : TeamRoster)
    (current_pick current_round : ℕ) (i : ℕ) (p : Player) : BotScored :=
  let base_adp := getAdp p
  let learned_adjustment := eng.learnedAdjustment p.id
  let adp : Option ℚ :=
    if pyTruthy base_adp then some (base_adp.getD 0 + learned_adjustment) else none
  let ecr := ecrOr999 p
  let primary_rank : ℚ :=
    if pyTruthy adp && decide (adp.getD 0 < 999) then
      if decide (¬ecr = 0) && decide (ecr < 999) && decide (ecr < adp.getD 0 * (7 / 10)) then
        adp.getD 0 * (8 / 10) + ecr * (2 / 10)
      else adp.getD 0
    else if ecr = 0 then 999 else ecr
  let pick_vs_rank_diff : ℚ := (current_pick : ℚ) - primary_rank
  let value_multiplier : ℚ :=
    if pick_vs_rank_diff < -24 then 1 / 100
    else if pick_vs_rank_diff < -12 then 1 / 10
    else if pick_vs_rank_diff ≤ 0 then 1
    else min (1 + eng.powThreeHalves pick_vs_rank_diff / 15) 20
  let base_score := max 0 (400 - primary_rank) * value_multiplier
  let weights : ℚ × ℚ :=
    if current_round ≤ 3 then (95 / 100, 5 / 100)
    else if current_round ≤ 6 then (85 / 100, 15 / 100)
    else (7 / 10, 3 / 10)
  let need_score := roster.need_scores p.position
  let need_bonus := need_score * 30
  let scarcity_bonus : ℚ :=
    if 6 < current_round then (if scarcityFlag s p.position then 15 else 0) else 0
  let final_score := base_score * weights.1 + need_bonus * weights.2 + scarcity_bonus
  let randomness :=
    if 5 < pick_vs_rank_diff then eng.uniform (98 / 100) (102 / 100) i
    else if current_round ≤ 3 then eng.uniform (95 / 100) (105 / 100) i
    else eng.uniform (85 / 100) (115 / 100) i
  ⟨p, final_score * randomness, adp, ecr, need_score, primary_rank,
    value_multiplier, pick_vs_rank_diff⟩

/-- The `DynamicDraftEngine._advice_bot_realistic`. -/
def adviceBotRealistic (eng : Engine) (players : List Player) (s : DraftState)
    (team_id : ℕ) : List AdviceEntry :=
  let roster := s.rosters team_id
  let current_pick := s.current_pick_index + 1
  let current_round := s.current_pick_index / s.num_teams + 1
  let players_with_score := players.enum.map fun ip =>
    botScore eng s roster current_pick current_round ip.1 ip.2
  let sorted := pySortStable (fun a b => decide (b.final_score ≤ a.final_score))
    players_with_score
  (sorted.take 5).map fun b =>
    { player_id := b.player.id, player_name := b.player.name, name := b.player.name,
      position := b.player.position, score := some b.final_score, adp := b.adp,
      ecr := some b.ecr, consensus_rank := some b.primary_rank,
      value_multiplier := some b.value_multiplier,
      pick_vs_rank_diff := some b.pick_vs_rank_diff,
      need_score := some b.need_score, round := some current_round,
      scarcity_flag := scarcityFlag s b.player.position }

/-- The `DynamicDraftEngine._advice_plackett_luce`: the body immediately returns
the bot-realistic advice ("fallback ... to avoid blocking"); everything
after that `return` statement is unreachable dead code and is not
modelled. -/
def advicePlackettLuce (eng : Engine) (players : List Player) (s : DraftState)
    (team_id : ℕ) : List AdviceEntry :=
  adviceBotRealistic eng players s team_id

/-- The `DynamicDraftEngine._advice_best_vorp`. -/
def adviceBestVorp (s : DraftState) (players : List Player) : List AdviceEntry :=
  let players_with_vorp := players.map fun p => (p, (s.vorp_cache p.id).getD 0)
  let sorted := pySortStable (fun a b => decide (b.2 ≤ a.2)) players_with_vorp
  (sorted.take 5).map fun pv =>
    { player_id := pv.1.id, name := pv.1.name, position := pv.1.position,
      vorp := some pv.2, scarcity_flag := scarcityFlag s pv.1.position }

/-- The `DynamicDraftEngine._advice_upside` ("use VORP as proxy for upside"). -/
def adviceUpside (s : DraftState) (players : List Player) : List AdviceEntry :=
  adviceBestVorp s players

/-- Per-player tuple of `_advice_fill_need`. -/
structure NeedScored where
  player : Player
  combined : ℚ
  need_score : ℚ
  vorp : ℚ

/-- The `DynamicDraftEngine._advice_fill_need`. -/
def adviceFillNeed (s : DraftState) (players : List Player) (team_id : ℕ) :
    List AdviceEntry :=
  let roster := s.rosters team_id
  let players_with_score := players.map fun p =>
    let need_score := roster.need_scores p.position
    let vorp := (s.vorp_cache p.id).getD 0
    (⟨p, need_score * vorp, need_score, vorp⟩ : NeedScored)
  let sorted := pySortStable (fun a b => decide (b.combined ≤ a.combined))
    players_with_score
  (sorted.take 5).map fun x =>
    { player_id := x.player.id, name := x.player.name, position := x.player.position,
      vorp := some x.vorp, need_score := some x.need_score,
      scarcity_flag := scarcityFlag s x.player.position }

/-- The four-entry `starting_requirements` dict built inside `_advice_robust`
and `_advice_draft_advantage`, read through `.get(pos, 0)`. -/
def startingReq : PositionEnum → ℕ
  | .QB => rosterRequirements .QB
  | .RB => rosterRequirements .RB
  | .WR => rosterRequirements .WR
  | .TE => rosterRequirements .TE
  | _ => 0

/-- The starting-lineup-awareness test shared verbatim by `_advice_robust`
and `_advice_draft_advantage`: RB/WR/TE (+FLEX) starters not yet all
filled, this position's starter quota already met, and round ≤ 8. -/
def starterPenaltyApplies (s : DraftState) (roster : TeamRoster)
    (pos : PositionEnum) : Bool :=
  let current_round := s.current_pick_index / s.num_teams + 1
  let required_total := startingReq .RB + startingReq .WR + startingReq .TE + 1
  let have_total := roster.positional_counts .RB + roster.positional_counts .WR +
    roster.positional_counts .TE
  let pool_starters_remaining : ℤ := max 0 ((required_total : ℤ) - (have_total : ℤ))
  decide (0 < pool_starters_remaining) &&
    decide (startingReq pos ≤ roster.positional_counts pos) &&
    decide (current_round ≤ 8)

/-- The zero `ScarcityMetrics` default used by
`scarcity_cache.get(p.position, ScarcityMetrics(p.position, 0, 0, 0, False, 0, 0))`. -/
def defaultScarcity (pos : PositionEnum) : ScarcityMetrics :=
  ⟨pos, 0, 0, 0, false, 0, 0⟩

/-- Per-player tuple of `_advice_robust`. -/
structure RobustScored where
  player : Player
  robust_score : ℚ
  vorp : ℚ
  need_score : ℚ
  scarcity : ScarcityMetrics

/-- The `DynamicDraftEngine._advice_robust`. -/
def adviceRobust (s : DraftState) (players : List Player) (team_id : ℕ) :
    List AdviceEntry :=
  let roster := s.rosters team_id
  let players_with_score := players.map fun p =>
    let vorp := (s.vorp_cache p.id).getD 0
    let need_score := roster.need_scores p.position
    let scarcity := (s.scarcity_cache p.position).getD (defaultScarcity p.position)
    let robust_score := vorp + need_score * 2 + scarcity.scarcity_score * (3 / 2)
    let robust_score :=
      if starterPenaltyApplies s roster p.position then
        robust_score * (if p.position = .TE then 15 / 100 else 5 / 10)
      else robust_score
    (⟨p, robust_score, vorp, need_score, scarcity⟩ : RobustScored)
  let sorted := pySortStable (fun a b => decide (b.robust_score ≤ a.robust_score))
    players_with_score
  (sorted.take 5).map fun x =>
    { player_id := x.player.id, name := x.player.name, position := x.player.position,
      vorp := some x.vorp, robust_score := some x.robust_score,
      scarcity_flag := x.scarcity.urgency_flag }

/-- Per-player tuple of `_advice_draft_advantage`. -/
structure DasScored where
  player : Player
  strategic_score : ℚ
  info : DasInfo
  need_score : ℚ

/-- The `DynamicDraftEngine._advice_draft_advantage`. -/
def adviceDraftAdvantage (eng : Engine) (players : List Player) (s : DraftState)
    (team_id : ℕ) : List AdviceEntry :=
  let roster := s.rosters team_id
  let players_with_das := players.map fun p =>
    let das_info := calculateDraftAdvantageScore eng s p team_id
    let need_score := roster.need_scores p.position
    let need_bonus := need_score * 5
    let scarcity_bonus : ℚ := if scarcityFlag s p.position then 10 else 0
    let strategic_score := das_info.das + need_bonus + scarcity_bonus
    let strategic_score :=
      if starterPenaltyApplies s roster p.position then
        strategic_score * (if p.position = .TE then 15 / 100 else 5 / 10)
      else strategic_score
    (⟨p, strategic_score, das_info, need_score⟩ : DasScored)
  let sorted := pySortStable (fun a b => decide (b.strategic_score ≤ a.strategic_score))
    players_with_das
  (sorted.take 5).map fun x =>
    { player_id := x.player.id, player_name := x.player.name, name := x.player.name,
      position := x.player.position, das := some x.info.das,
      strategic_score := some x.strategic_score,
      current_points := some (x.info.current_points.getD 0),
      replacement_points := some (x.info.replacement_points.getD 0),
      replacement_player := x.info.replacement_player,
      picks_until_next := some (x.info.picks_until_next.getD 0),
      need_score := some x.need_score,
      scarcity_flag := scarcityFlag s x.player.position }

/-- The `DynamicDraftEngine.get_advice`: string-tag dispatch over the strategy
family, defaulting to the robust strategy. -/
def getAdvice (eng : Engine) (s : DraftState) (team_id : ℕ) (mode : String) :
    List AdviceEntry :=
  let available_players := availablePlayers eng s
  if mode = "best_vorp" then adviceBestVorp s available_players
  else if mode = "fill_need" then adviceFillNeed s available_players team_id
  else if mode = "upside" then adviceUpside s available_players
  else if mode = "bot_realistic" then adviceBotRealistic eng available_players s team_id
  else if mode = "draft_advantage" then adviceDraftAdvantage eng available_players s team_id
  else if mode = "plackett_luce" then advicePlackettLuce eng available_players s team_id
  else adviceRobust s available_players team_id

/-- C8: requesting advice in the calibrated-probability mode never blocks or
errors (the embedding is a total function) and returns exactly the
bot-realistic recommendation list on the same inputs, for every engine,
draft state and team. -/
theorem c8_plackett_luce_fallback (eng : Engine) (s : DraftState) (team_id : ℕ) :
    getAdvice eng s team_id "plackett_luce" =
      adviceBotRealistic eng (availablePlayers eng s) s team_id := by
  rfl

/-! ### C7: draft-advantage score -/

/-- Evaluation of `_calculate_draft_advantage_score` on its generic branch
(a future pick exists and enough position players remain). -/
lemma das_eval_generic (eng : Engine) (s : DraftState) (player : Player)
    (team_id next_pick : ℕ) (current rpts : ℚ)
    (hnp : getUserNextPicks s team_id ≠ [])
    (hfind : (getUserNextPicks s team_id).find? (fun (i : ℕ) =>
      decide (0 < (i : ℤ) - (s.current_pick_index : ℤ))) = some next_pick)
    (hnz : next_pick ≠ 0)
    (hlen : expectedPositionPicks (next_pick - s.current_pick_index) <
      (availableAtPosition eng s player.position).length)
    (hcur : getProjectedPoints player s.scoring_mode = some current)
    (hrp : getProjectedPoints ((availableAtPosition eng s player.position).get
      ⟨expectedPositionPicks (next_pick - s.current_pick_index), hlen⟩)
      s.scoring_mode = some rpts) :
    calculateDraftAdvantageScore eng s player team_id =
      { das :=
          (if next_pick - s.current_pick_index ≤ 12 then (current - rpts) * (8 / 10)
           else if 24 ≤ next_pick - s.current_pick_index then (current - rpts) * (13 / 10)
           else current - rpts),
        replacement_player := some ((availableAtPosition eng s player.position).get
          ⟨expectedPositionPicks (next_pick - s.current_pick_index), hlen⟩).name,
        replacement_points := some rpts,
        picks_until_next := some (next_pick - s.current_pick_index),
        current_points := some current } := by
  simp only [calculateDraftAdvantageScore, if_neg hnp, hfind, if_neg hnz,
    hcur, dif_pos hlen, hrp]

/-- Evaluation of the spec-modelled variant on the same branch. -/
lemma das_spec_eval_generic (eng : Engine) (s : DraftState) (player : Player)
    (team_id next_pick : ℕ) (current rpts : ℚ)
    (hnp : getUserNextPicks s team_id ≠ [])
    (hfind : (getUserNextPicks s team_id).find? (fun (i : ℕ) =>
      decide (0 < (i : ℤ) - (s.current_pick_index : ℤ))) = some next_pick)
    (hnz : next_pick ≠ 0)
    (hlen : max 1 ((next_pick - s.current_pick_index) / s.num_teams) <
      (availableAtPosition eng s player.position).length)
    (hcur : getProjectedPoints player s.scoring_mode = some current)
    (hrp : getProjectedPoints ((availableAtPosition eng s player.position).get
      ⟨max 1 ((next_pick - s.current_pick_index) / s.num_teams), hlen⟩)
      s.scoring_mode = some rpts) :
    calculateDraftAdvantageScoreSpec eng s player team_id =
      { das :=
          (if next_pick - s.current_pick_index ≤ 12 then (current - rpts) * (8 / 10)
           else if 24 ≤ next_pick - s.current_pick_index then (current - rpts) * (13 / 10)
           else current - rpts),
        replacement_player := some ((availableAtPosition eng s player.position).get
          ⟨max 1 ((next_pick - s.current_pick_index) / s.num_teams), hlen⟩).name,
        replacement_points := some rpts,
        picks_until_next := some (next_pick - s.current_pick_index),
        current_points := some current } := by
  simp only [calculateDraftAdvantageScoreSpec, if_neg hnp, hfind, if_neg hnz,
    hcur, dif_pos hlen, hrp]

/-- C7 (amended): in the generic branch, the draft-advantage score estimates
the replacement available at the requesting team's next pick by assuming
one player at the position is taken roughly every **12** picks (the
hard-coded constant, which coincides with team count only in 12-team
drafts): the expected replacement is the entry of the ADP-sorted remaining
position list at index `max 1 (picks_until // 12)`, and the resulting
`current − replacement` score is scaled by 0.8 when the next pick is at
most 12 picks away and by 1.3 when it is at least 24 picks away.  The
unamended "every team-count picks" reading is refuted by
`c7_counterexample`. -/
theorem c7_das_forward_estimate (eng : Engine) (s : DraftState) (player : Player)
    (team_id next_pick : ℕ) (current rpts : ℚ)
    (hnp : getUserNextPicks s team_id ≠ [])
    (hfind : (getUserNextPicks s team_id).find? (fun (i : ℕ) =>
      decide (0 < (i : ℤ) - (s.current_pick_index : ℤ))) = some next_pick)
    (hnz : next_pick ≠ 0)
    (hlen : expectedPositionPicks (next_pick - s.current_pick_index) <
      (availableAtPosition eng s player.position).length)
    (hcur : getProjectedPoints player s.scoring_mode = some current)
    (hrp : getProjectedPoints ((availableAtPosition eng s player.position).get
      ⟨expectedPositionPicks (next_pick - s.current_pick_index), hlen⟩)
      s.scoring_mode = some rpts) :
    (calculateDraftAdvantageScore eng s player team_id).das =
      (if next_pick - s.current_pick_index ≤ 12 then (current - rpts) * (8 / 10)
       else if 24 ≤ next_pick - s.current_pick_index then (current - rpts) * (13 / 10)
       else current - rpts) ∧
    (calculateDraftAdvantageScore eng s player team_id).picks_until_next =
      some (next_pick - s.current_pick_index) ∧
    (calculateDraftAdvantageScore eng s player team_id).replacement_points = some rpts ∧
    expectedPositionPicks (next_pick - s.current_pick_index) =
      max 1 ((next_pick - s.current_pick_index) / 12) := by
  rw [das_eval_generic eng s player team_id next_pick current rpts hnp hfind hnz
    hlen hcur hrp]
  exact ⟨rfl, rfl, rfl, rfl⟩

/-- Three wide receivers for the C7 counterexample catalog. -/
def wrC (i : ℕ) (pts adp : ℚ) : Player :=
  { id := i, position := .WR, projected_points_half_ppr := some pts,
    adp_ppr := some adp }

/-- Engine for the C7 counterexample: receivers worth 100, 90 and 50 points
with ADPs 1, 2 and 3. -/
def engC7 : Engine :=
  { catalog := fun i => if i = 1 then some (wrC 1 100 1)
      else if i = 2 then some (wrC 2 90 2)
      else if i = 3 then some (wrC 3 50 3) else none,
    catalogIds := {1, 2, 3},
    position_players := fun pos =>
      if pos = .WR then [wrC 1 100 1, wrC 2 90 2, wrC 3 50 3] else [] }

/-- A 16-team snake draft at global pick 7; team 1's next slot is pick
index 31, i.e. 24 picks away. -/
def stC7 : DraftState :=
  { num_teams := 16, draft_spot := 1, snake := true, scoring_mode := .HALF_PPR,
    draft_order := generateDraftOrder 16 true, current_pick_index := 7,
    remaining_players := {1, 2, 3} }

set_option maxRecDepth 8000 in
/-- C7 counterexample: in a 16-team draft with the next pick 24 picks away,
the source divides by the constant 12 (expecting 2 position players taken,
replacement = the 50-point receiver, score (100−50)×1.3 = 65) while the
claim's "one player every team-count picks" predicts 24//16 = 1 (replacement
= the 90-point receiver, score (100−90)×1.3 = 13): the claimed estimate
differs from the code's. -/
theorem c7_counterexample :
    stC7.num_teams = 16 ∧
    (calculateDraftAdvantageScore engC7 stC7 (wrC 1 100 1) 1).picks_until_next = some 24 ∧
    (calculateDraftAdvantageScore engC7 stC7 (wrC 1 100 1) 1).das = 65 ∧
    (calculateDraftAdvantageScoreSpec engC7 stC7 (wrC 1 100 1) 1).das = 13 ∧
    ¬(calculateDraftAdvantageScore engC7 stC7 (wrC 1 100 1) 1).das =
      (calculateDraftAdvantageScoreSpec engC7 stC7 (wrC 1 100 1) 1).das := by
  have hc := das_eval_generic engC7 stC7 (wrC 1 100 1) 1 31 100 50
    (by decide) (by decide) (by decide) (by decide) (by decide) (by decide)
  have hs := das_spec_eval_generic engC7 stC7 (wrC 1 100 1) 1 31 100 90
    (by decide) (by decide) (by decide) (by decide) (by decide) (by decide)
  refine ⟨by decide, ?_, ?_, ?_, ?_⟩
  · rw [hc]
    decide
  · rw [hc]
    norm_num [stC7]
  · rw [hs]
    norm_num [stC7]
  · rw [hc, hs]
    norm_num [stC7]

set_option maxRecDepth 8000 in
theorem c7_witness :
    (calculateDraftAdvantageScore engC7 stC7 (wrC 1 100 1) 1).das =
      (if 31 - stC7.current_pick_index ≤ 12 then ((100 : ℚ) - 50) * (8 / 10)
       else if 24 ≤ 31 - stC7.current_pick_index then ((100 : ℚ) - 50) * (13 / 10)
       else (100 : ℚ) - 50) ∧
    (calculateDraftAdvantageScore engC7 stC7 (wrC 1 100 1) 1).picks_until_next =
      some (31 - stC7.current_pick_index) ∧
    (calculateDraftAdvantageScore engC7 stC7 (wrC 1 100 1) 1).replacement_points =
      some 50 ∧
    expectedPositionPicks (31 - stC7.current_pick_index) =
      max 1 ((31 - stC7.current_pick_index) / 12) :=
  c7_das_forward_estimate engC7 stC7 (wrC 1 100 1) 1 31 100 50
    (by decide) (by decide) (by decide) (by decide) (by decide) (by decide)

end FFDraft
